import Mathlib

/-!
Verification of the interpretation-and-normalization pipeline of the
nawwa-ai backend (`backend/services/llm_service.py`,
`backend/services/rule_interpreter.py`, `backend/services/image_service.py`,
`backend/services/config.py`).

Python JSON-like values are shallowly embedded as `JVal`; Python ints and
floats are both carried as exact rationals (Python `==` identifies `5` and
`5.0`, and no verified property depends on binary64 rounding).  Operations
that can raise are embedded in `Except String`.  External network calls
(OpenAI chat/image endpoints, the Wikipedia image resolver, and CPython
`eval` of a compiled expression) are parameters ("oracles") of the
embedding; everything else is translated from the source.
-/

namespace Nawwa

/-- A Python/JSON value.  Dicts are association lists in insertion order;
numbers (int and float alike) are exact rationals. -/
inductive JVal where
  | null
  | jbool (b : Bool)
  | jnum (q : ℚ)
  | jstr (s : String)
  | jarr (xs : List JVal)
  | jobj (kvs : List (String × JVal))

mutual

/-- Boolean equality on `JVal` (the nested inductive blocks `deriving DecidableEq`). -/
def JVal.beq : JVal → JVal → Bool
  | .null, .null => true
  | .jbool a, .jbool b => decide (a = b)
  | .jnum a, .jnum b => decide (a = b)
  | .jstr a, .jstr b => decide (a = b)
  | .jarr xs, .jarr ys => JVal.beqList xs ys
  | .jobj xs, .jobj ys => JVal.beqObj xs ys
  | _, _ => false

def JVal.beqList : List JVal → List JVal → Bool
  | [], [] => true
  | x :: xs, y :: ys => JVal.beq x y && JVal.beqList xs ys
  | _, _ => false

def JVal.beqObj : List (String × JVal) → List (String × JVal) → Bool
  | [], [] => true
  | (k, v) :: xs, (k2, v2) :: ys => decide (k = k2) && JVal.beq v v2 && JVal.beqObj xs ys
  | _, _ => false

end

mutual

theorem JVal.eq_of_beq : ∀ (a b : JVal), JVal.beq a b = true → a = b
  | .null, .null, _ => rfl
  | .jbool a, .jbool b, h => by rw [of_decide_eq_true h]
  | .jnum a, .jnum b, h => by rw [of_decide_eq_true h]
  | .jstr a, .jstr b, h => by rw [of_decide_eq_true h]
  | .jarr xs, .jarr ys, h => by rw [JVal.eqList_of_beqList xs ys h]
  | .jobj xs, .jobj ys, h => by rw [JVal.eqObj_of_beqObj xs ys h]

theorem JVal.eqList_of_beqList : ∀ (xs ys : List JVal), JVal.beqList xs ys = true → xs = ys
  | [], [], _ => rfl
  | x :: xs, y :: ys, h => by
    have h2 := Bool.and_elim_right h
    have h1 := Bool.and_elim_left h
    rw [JVal.eq_of_beq x y h1, JVal.eqList_of_beqList xs ys h2]

theorem JVal.eqObj_of_beqObj : ∀ (xs ys : List (String × JVal)), JVal.beqObj xs ys = true → xs = ys
  | [], [], _ => rfl
  | (k, v) :: xs, (k2, v2) :: ys, h => by
    have h3 := Bool.and_elim_right h
    have h12 := Bool.and_elim_left h
    have h1 := Bool.and_elim_left h12
    have h2 := Bool.and_elim_right h12
    rw [of_decide_eq_true h1, JVal.eq_of_beq v v2 h2, JVal.eqObj_of_beqObj xs ys h3]

end

mutual

theorem JVal.beq_refl : ∀ (a : JVal), JVal.beq a a = true
  | .null => rfl
  | .jbool _ => decide_eq_true rfl
  | .jnum _ => decide_eq_true rfl
  | .jstr _ => decide_eq_true rfl
  | .jarr xs => JVal.beqList_refl xs
  | .jobj xs => JVal.beqObj_refl xs

theorem JVal.beqList_refl : ∀ (xs : List JVal), JVal.beqList xs xs = true
  | [] => rfl
  | x :: xs => by
    show (JVal.beq x x && JVal.beqList xs xs) = true
    rw [JVal.beq_refl x, JVal.beqList_refl xs]
    rfl

theorem JVal.beqObj_refl : ∀ (xs : List (String × JVal)), JVal.beqObj xs xs = true
  | [] => rfl
  | (k, v) :: xs => by
    show (decide (k = k) && JVal.beq v v && JVal.beqObj xs xs) = true
    rw [decide_eq_true rfl, JVal.beq_refl v, JVal.beqObj_refl xs]
    rfl

end

instance : DecidableEq JVal := fun a b =>
  decidable_of_iff (JVal.beq a b = true)
    ⟨JVal.eq_of_beq a b, fun h => h ▸ JVal.beq_refl a⟩

instance {ε α : Type} [DecidableEq ε] [DecidableEq α] : DecidableEq (Except ε α) := fun x y =>
  match x, y with
  | .ok a, .ok b =>
    if h : a = b then isTrue (by rw [h])
    else isFalse (fun hc => absurd (by injection hc) h)
  | .error a, .error b =>
    if h : a = b then isTrue (by rw [h])
    else isFalse (fun hc => absurd (by injection hc) h)
  | .ok a, .error b => isFalse (fun hc => Except.noConfusion hc)
  | .error a, .ok b => isFalse (fun hc => Except.noConfusion hc)

/-! ## Python value semantics -/

/-- Python truthiness of a value (`bool(v)`). -/
def pyTruthy : JVal → Bool
  | .null => false
  | .jbool b => b
  | .jnum q => decide (q ≠ 0)
  | .jstr s => decide (s ≠ "")
  | .jarr xs => decide (xs ≠ [])
  | .jobj kvs => decide (kvs ≠ [])

/-- Python `a or b`: `a` if truthy, else `b`. -/
def pyOr (a b : JVal) : JVal := if pyTruthy a then a else b

/-- First binding of a key in a dict (Python dict keys are unique; lookups
return the unique binding). -/
def dlookup : List (String × JVal) → String → Option JVal
  | [], _ => none
  | (k, v) :: rest, key => if k = key then some v else dlookup rest key

/-- `d.get(key)` on a dict: the binding, or `None` when absent. -/
def dget (kvs : List (String × JVal)) (key : String) : JVal :=
  (dlookup kvs key).getD .null

/-- `d.get(key, default)` on a dict. -/
def dgetD (kvs : List (String × JVal)) (key : String) (default : JVal) : JVal :=
  (dlookup kvs key).getD default

/-- `d[key] = v`: replace the existing binding in place, else append
(Python dict insertion order). -/
def dset : List (String × JVal) → String → JVal → List (String × JVal)
  | [], key, v => [(key, v)]
  | (k, w) :: rest, key, v =>
    if k = key then (key, v) :: rest else (k, w) :: dset rest key v

/-- Python `round()` on a float: round half to even, as used by
`int(round(float(v)))` in `_coerce_int`. -/
def roundHalfEven (q : ℚ) : ℤ :=
  let f : ℤ := q.floor
  let frac : ℚ := q - f
  if frac < 1/2 then f
  else if 1/2 < frac then f + 1
  else if f % 2 = 0 then f else f + 1

/-- Python `int()` truncation toward zero of a float, as used by
`_poly_points` (`int(cx + x * scale)`). -/
def pyTrunc (q : ℚ) : ℤ := q.num.tdiv (q.den : ℤ)

/-- Best-effort model of CPython `float(str)` for plain decimal literals
(optional sign, digits, optional fractional part, optional exponent);
exotic spellings (`inf`, `nan`, underscores, unicode digits) are treated
as parse failures, which no verified property depends on. -/
def parseDigits : List Char → Option (ℕ × ℕ)
  | [] => none
  | cs =>
    let digs := cs.takeWhile (fun c => c.isDigit)
    if digs = [] then none
    else some (digs.foldl (fun acc c => acc * 10 + (c.toNat - 48)) 0, digs.length)

/-- Parse the mantissa-and-exponent body of a float literal. -/
def parseFloatBody (cs : List Char) : Option ℚ :=
  let intPart := cs.takeWhile (fun c => c.isDigit)
  let rest₁ := cs.dropWhile (fun c => c.isDigit)
  match rest₁ with
  | '.' :: rest₂ =>
    let fracPart := rest₂.takeWhile (fun c => c.isDigit)
    let rest₃ := rest₂.dropWhile (fun c => c.isDigit)
    if intPart = [] ∧ fracPart = [] then none
    else
      let mantissa : ℚ :=
        (intPart.foldl (fun acc c => acc * 10 + (c.toNat - 48)) 0 : ℕ) +
          (fracPart.foldl (fun acc c => acc * 10 + (c.toNat - 48)) 0 : ℕ) /
            ((10 : ℚ) ^ fracPart.length)
      match rest₃ with
      | [] => some mantissa
      | 'e' :: es => (parseExponent es).map (fun e => mantissa * (10 : ℚ) ^ e)
      | 'E' :: es => (parseExponent es).map (fun e => mantissa * (10 : ℚ) ^ e)
      | _ => none
  | [] => if intPart = [] then none else
      some ((intPart.foldl (fun acc c => acc * 10 + (c.toNat - 48)) 0 : ℕ) : ℚ)
  | 'e' :: es =>
    if intPart = [] then none else
      (parseExponent es).map (fun e =>
        ((intPart.foldl (fun acc c => acc * 10 + (c.toNat - 48)) 0 : ℕ) : ℚ) * (10 : ℚ) ^ e)
  | 'E' :: es =>
    if intPart = [] then none else
      (parseExponent es).map (fun e =>
        ((intPart.foldl (fun acc c => acc * 10 + (c.toNat - 48)) 0 : ℕ) : ℚ) * (10 : ℚ) ^ e)
  | _ => none
where
  parseExponent (cs : List Char) : Option ℤ :=
    match cs with
    | '+' :: ds => if ds ≠ [] ∧ ds.all (fun c => c.isDigit) then
        some ((ds.foldl (fun acc c => acc * 10 + (c.toNat - 48)) 0 : ℕ) : ℤ) else none
    | '-' :: ds => if ds ≠ [] ∧ ds.all (fun c => c.isDigit) then
        some (-((ds.foldl (fun acc c => acc * 10 + (c.toNat - 48)) 0 : ℕ) : ℤ)) else none
    | ds => if ds ≠ [] ∧ ds.all (fun c => c.isDigit) then
        some ((ds.foldl (fun acc c => acc * 10 + (c.toNat - 48)) 0 : ℕ) : ℤ) else none

/-- ASCII whitespace, the characters matched by `\s` (and stripped by
`str.strip()`) on the inputs we model. -/
def isPyWs (c : Char) : Bool :=
  c = ' ' ∨ c = '\t' ∨ c = '\n' ∨ c = '\r' ∨ c = '\x0b' ∨ c = '\x0c'

/-- `float(s)` on a string: strip whitespace, optional sign, decimal body. -/
def pyFloatOfString (s : String) : Option ℚ :=
  let cs := (s.data.dropWhile isPyWs).reverse.dropWhile isPyWs |>.reverse
  match cs with
  | '-' :: rest => (parseFloatBody rest).map (fun q => -q)
  | '+' :: rest => parseFloatBody rest
  | rest => parseFloatBody rest

/-- `float(v)` on an arbitrary value: numbers and bools convert, numeric
strings parse, everything else raises (returns `none`). -/
def pyFloat : JVal → Option ℚ
  | .jnum q => some q
  | .jbool b => some (if b then 1 else 0)
  | .jstr s => pyFloatOfString s
  | _ => none

/-- `_coerce_int(v, default)` (llm_service.py): `None` maps to the default,
otherwise `int(round(float(v)))` with any exception mapped to the default. -/
def coerceInt (v : JVal) (default : Option ℤ) : Option ℤ :=
  match v with
  | .null => default
  | v =>
    match pyFloat v with
    | some q => some (roundHalfEven q)
    | none => default

/-- Does `pat` begin the character list `s`? -/
def charsLead : List Char → List Char → Bool
  | [], _ => true
  | _ :: _, [] => false
  | p :: ps, c :: cs => decide (p = c) && charsLead ps cs

/-- Does `pat` occur contiguously inside `s`? -/
def charsInfix (pat : List Char) : List Char → Bool
  | [] => charsLead pat []
  | c :: rest => charsLead pat (c :: rest) || charsInfix pat rest

/-- Python `kw in text` substring test. -/
def hasSubstr (text kw : String) : Bool := charsInfix kw.data text.data

/-- `any(kw in text for kw in kws)`. -/
def containsAny (text : String) (kws : List String) : Bool :=
  kws.any (fun k => hasSubstr text k)

/-- `str.strip()`: drop leading and trailing whitespace. -/
def pyStrip (s : String) : String :=
  String.mk ((s.data.dropWhile isPyWs).reverse.dropWhile isPyWs |>.reverse)

/-- `str.lstrip(chars)`: drop leading characters belonging to the set. -/
def pyLStripSet (s : String) (set : List Char) : String :=
  String.mk (s.data.dropWhile (fun c => set.contains c))

/-- `str.strip(chars)`: drop characters of the set from both ends. -/
def pyStripSet (s : String) (set : List Char) : String :=
  String.mk ((s.data.dropWhile (fun c => set.contains c)).reverse.dropWhile
    (fun c => set.contains c) |>.reverse)

/-- `str.lower()` (ASCII, which covers every keyword comparison the
source performs). -/
def pyLower (s : String) : String := String.mk (s.data.map Char.toLower)

/-- `str.title()`: uppercase every character that follows a non-letter,
lowercase the rest (ASCII). -/
def pyTitle (s : String) : String :=
  String.mk ((s.data.foldl
    (fun acc c =>
      let out := if acc.2 then c.toLower else c.toUpper
      (out :: acc.1, c.isAlpha))
    (([] : List Char), false)).1.reverse)

/-- `str(v)`.  Faithful for strings, `None` and booleans — the only cases any
verified property exercises; numeric and container renderings are
best-effort placeholders. -/
def pyStr : JVal → String
  | .jstr s => s
  | .null => "None"
  | .jbool true => "True"
  | .jbool false => "False"
  | .jnum q => if q.den = 1 then toString q.num else toString q
  | .jarr _ => "<list>"
  | .jobj _ => "<dict>"

/-! ## Rule Engine (`backend/services/rule_interpreter.py`)

CPython `compile`/`eval` of the expression inside `_safe_parse_function` is
an external black box; it is abstracted as an oracle
`compileEval : String → Option (ℚ → Option ℚ)` receiving the transformed
expression text (`none` = `compile` raised; the produced function returns
`none` where evaluation raises).  Everything else is translated directly. -/

/-- `_poly_points(fn, x0, x1, n)` with the defaults `scale=40.0, cx=400,
cy=260` inlined (every call site uses the defaults).  An evaluation error
inside `fn` yields `y = 0.0`. -/
def polyPoints (fn : ℚ → Option ℚ) (x0 x1 : ℚ) (n : ℕ) : List JVal :=
  let step := (x1 - x0) / ((max (n - 1) 1 : ℕ) : ℚ)
  (List.range n).map (fun (i : ℕ) =>
    let x := x0 + (i : ℚ) * step
    let y := (fn x).getD 0
    JVal.jobj [("x", .jnum (pyTrunc (400 + x * 40))),
               ("y", .jnum (pyTrunc (260 - y * 40)))])

/-- `\s*`-skip. -/
def skipWs (cs : List Char) : List Char := cs.dropWhile isPyWs

/-- Character class `[\-0-9\.]` of the tangent-point regex. -/
def tangentClassChar (c : Char) : Bool := c = '-' ∨ c.isDigit ∨ c = '.'

/-- Attempt the tail `\s+at\s*x\s*=\s*([\-0-9\.]+)` of the tangent regex at
the position just after a literal `tangent`; returns the captured group. -/
def tangentTail (cs : List Char) : Option (List Char) :=
  if cs.takeWhile isPyWs = [] then none
  else
    match skipWs cs with
    | 'a' :: 't' :: rest =>
      match skipWs rest with
      | 'x' :: rest2 =>
        match skipWs rest2 with
        | '=' :: rest3 =>
          let body := (skipWs rest3).takeWhile tangentClassChar
          if body = [] then none else some body
        | _ => none
      | _ => none
    | _ => none

/-- `re.search(r"tangent\s+at\s*x\s*=\s*([\-0-9\.]+)", text)`: leftmost
match wins; a failed attempt resumes the scan one character further on. -/
def findTangentAt : List Char → Option (List Char)
  | [] => none
  | c :: rest =>
    if charsLead "tangent".data (c :: rest) then
      match tangentTail ((c :: rest).drop 7) with
      | some cap => some cap
      | none => findTangentAt rest
    else findTangentAt rest

/-- The two grey axis lines emitted by both plotting handlers. -/
def xAxisLine : JVal :=
  .jobj [("type", .jstr "line"), ("x", .jnum 100), ("y", .jnum 260),
         ("width", .jnum 600), ("height", .jnum 0), ("color", .jstr "#9ca3af")]

def yAxisLine : JVal :=
  .jobj [("type", .jstr "line"), ("x", .jnum 400), ("y", .jnum 460),
         ("width", .jnum 0), ("height", .jnum (-360)), ("color", .jstr "#9ca3af")]

/-- `try_parabola_tangent(command)`.  The command must mention `parabola`;
an optional tangent point `tangent at x = N` adds a 10-point tangent
polyline.  `float()` of a garbage capture (e.g. `x=--`) raises out of the
handler uncaught, hence the `Except`. -/
def try_parabola_tangent (command : String) : Except String (Option JVal) :=
  let text := pyLower command
  if !hasSubstr text "parabola" then .ok none
  else
    let mkSpec (a : Option ℚ) : JVal :=
      let base : List JVal :=
        [xAxisLine, yAxisLine,
         .jobj [("type", .jstr "polyline"),
                ("points", .jarr (polyPoints (fun x => some (x * x)) (-6) 6 120)),
                ("color", .jstr "#2563eb")]]
      let tangent : List JVal :=
        match a with
        | none => []
        | some a =>
          let m := 2 * a
          [.jobj [("type", .jstr "polyline"),
                  ("points", .jarr (polyPoints (fun x => some (m * (x - a) + a * a)) (a - 3) (a + 3) 10)),
                  ("color", .jstr "#ef4444")]]
      .jobj [("elements", .jarr (base ++ tangent))]
    match findTangentAt text.data with
    | none => .ok (some (mkSpec none))
    | some cap =>
      match pyFloatOfString (String.mk cap) with
      | none => .error "ValueError: could not convert string to float"
      | some a => .ok (some (mkSpec (some a)))

def chart_type_keywords : List String :=
  ["scatter", "bar chart", "histogram", "pie chart", "line chart",
   "box plot", "heatmap", "sankey"]

/-- `re.search(r"y\s*=\s*([^,;]+)", command, re.I)`: scan for `y`/`Y`,
skip whitespace, require `=`, then take everything up to the first `,`/`;`.
(The greedy `\s*` before the greedy `[^,;]+` capture only shifts leading
whitespace that the subsequent `.strip()` removes, so we return the whole
post-`=` run; a run that is empty fails the `+` and the scan resumes.) -/
def findYEq : List Char → Option (List Char)
  | [] => none
  | c :: rest =>
    if c = 'y' ∨ c = 'Y' then
      match skipWs rest with
      | '=' :: rest2 =>
        let body := rest2.takeWhile (fun ch => ¬(ch = ',' ∨ ch = ';'))
        if body = [] then findYEq rest else some body
      | _ => findYEq rest
    else findYEq rest

/-- `_safe_parse_function(expr)`: lowercase, `^`→`**`, then compile/eval
(the oracle). -/
def safe_parse_function (compileEval : String → Option (ℚ → Option ℚ))
    (expr : String) : Option (ℚ → Option ℚ) :=
  compileEval ((pyLower (pyStrip expr)).replace "^" "**")

/-- `try_plot_function(command)`: declines on chart-type keywords, requires
a `y = <expr>` match, and emits two axis lines plus a 120-point polyline.
Parse errors are caught and yield `None`. -/
def try_plot_function (compileEval : String → Option (ℚ → Option ℚ))
    (command : String) : Option JVal :=
  let m := findYEq command.data
  let cmd_lower := pyLower command
  if containsAny cmd_lower chart_type_keywords then none
  else
    match m with
    | none => none
    | some body =>
      let expr := pyStrip (String.mk body)
      match safe_parse_function compileEval expr with
      | none => none
      | some fn =>
        some (.jobj [("elements", .jarr
          [xAxisLine, yAxisLine,
           .jobj [("type", .jstr "polyline"),
                  ("points", .jarr (polyPoints fn (-6) 6 120)),
                  ("color", .jstr "#10b981")]])])

/-- `try_flowchart(command)`: a vertical stack of labeled boxes joined by
arrows; 4 funnel steps or 3 generic steps. -/
def try_flowchart (command : String) : Option JVal :=
  let text := pyLower command
  if !containsAny text ["flowchart", "funnel"] then none
  else
    let steps : List String :=
      if hasSubstr text "funnel" then ["Awareness", "Consideration", "Signup", "Activation"]
      else ["Start", "Process", "End"]
    let n := steps.length
    let elements : List JVal :=
      (steps.enum).flatMap (fun p =>
        let i := p.1
        let s := p.2
        let yy : ℚ := 100 + (i : ℚ) * 90
        [JVal.jobj [("type", .jstr "rect"), ("x", .jnum 120), ("y", .jnum yy),
                    ("width", .jnum 220), ("height", .jnum 60), ("color", .jstr "#e5e7eb")],
         JVal.jobj [("type", .jstr "text"), ("x", .jnum 136), ("y", .jnum (yy + 18)),
                    ("label", .jstr s), ("color", .jstr "#111827")]] ++
        (if i < n - 1 then
          [JVal.jobj [("type", .jstr "arrow"), ("x", .jnum 230), ("y", .jnum (yy + 60)),
                      ("width", .jnum 0), ("height", .jnum 30), ("color", .jstr "#6b7280")]]
         else []))
    some (.jobj [("elements", .jarr elements)])

/-- `_try_icon_person(command)`: canned stick figure, plus a ball in a
soccer context. -/
def try_icon_person (command : String) : Option JVal :=
  let text := pyLower command
  if !containsAny text ["person", "human", "man", "woman", "stick figure", "messi"] then none
  else
    let x : ℚ := 380
    let y : ℚ := 140
    let base : List JVal :=
      [.jobj [("type", .jstr "circle"), ("x", .jnum x), ("y", .jnum y),
              ("radius", .jnum 24), ("color", .jstr "#fde68a")],
       .jobj [("type", .jstr "line"), ("x", .jnum x), ("y", .jnum (y + 24)),
              ("width", .jnum 0), ("height", .jnum 80), ("color", .jstr "#111827")],
       .jobj [("type", .jstr "line"), ("x", .jnum x), ("y", .jnum (y + 54)),
              ("width", .jnum (-40)), ("height", .jnum 20), ("color", .jstr "#111827")],
       .jobj [("type", .jstr "line"), ("x", .jnum x), ("y", .jnum (y + 54)),
              ("width", .jnum 40), ("height", .jnum 20), ("color", .jstr "#111827")],
       .jobj [("type", .jstr "line"), ("x", .jnum x), ("y", .jnum (y + 104)),
              ("width", .jnum (-30)), ("height", .jnum 50), ("color", .jstr "#111827")],
       .jobj [("type", .jstr "line"), ("x", .jnum x), ("y", .jnum (y + 104)),
              ("width", .jnum 30), ("height", .jnum 50), ("color", .jstr "#111827")]]
    let ball : List JVal :=
      if containsAny text ["soccer", "football", "messi"] then
        [.jobj [("type", .jstr "circle"), ("x", .jnum (x + 60)), ("y", .jnum (y + 140)),
                ("radius", .jnum 12), ("color", .jstr "#16a34a")]]
      else []
    some (.jobj [("elements", .jarr (base ++ ball))])

/-- `_try_icon_temple(command)`: templated six-column facade. -/
def try_icon_temple (command : String) : Option JVal :=
  let text := pyLower command
  if !containsAny text ["petra", "temple", "treasury", "facade"] then none
  else
    let x : ℚ := 120
    let y : ℚ := 120
    let w : ℚ := 520
    let h : ℚ := 240
    let col_w : ℚ := 24
    let gap : ℚ := (w - 6 * col_w) / 7
    let cx := x + gap
    let base : List JVal :=
      [.jobj [("type", .jstr "rect"), ("x", .jnum x), ("y", .jnum (y + h - 20)),
              ("width", .jnum w), ("height", .jnum 20), ("color", .jstr "#d1d5db")],
       .jobj [("type", .jstr "triangle"), ("x", .jnum (x + w / 2 - 120)), ("y", .jnum (y - 20)),
              ("width", .jnum 240), ("height", .jnum 120), ("color", .jstr "#fca5a5")]]
    let cols : List JVal :=
      (List.range 6).map (fun (i : ℕ) =>
        .jobj [("type", .jstr "rect"), ("x", .jnum (pyTrunc (cx + (i : ℚ) * (col_w + gap)))),
               ("y", .jnum (y + 40)), ("width", .jnum col_w), ("height", .jnum (h - 60)),
               ("color", .jstr "#fecaca")])
    let entablature : List JVal :=
      [.jobj [("type", .jstr "rect"), ("x", .jnum x), ("y", .jnum (y + 20)),
              ("width", .jnum w), ("height", .jnum 20), ("color", .jstr "#fca5a5")]]
    some (.jobj [("elements", .jarr (base ++ cols ++ entablature))])

/-- `interpret_by_rules(command)`: ordered handlers, first non-null spec
wins.  The parabola handler can raise (`float()` of a garbage tangent
capture), which propagates to the caller. -/
def interpret_by_rules (compileEval : String → Option (ℚ → Option ℚ))
    (command : String) : Except String (Option JVal) :=
  match try_parabola_tangent command with
  | .error e => .error e
  | .ok (some spec) => .ok (some spec)
  | .ok none =>
    match try_plot_function compileEval command with
    | some spec => .ok (some spec)
    | none =>
      match try_flowchart command with
      | some spec => .ok (some spec)
      | none =>
        match try_icon_person command with
        | some spec => .ok (some spec)
        | none => .ok (try_icon_temple command)

/-! ## Normalizer (`llm_service.normalize_spec` and helpers)

The Wikipedia image resolver (`fetch_wikipedia_image_sync`, which never
raises and returns a URL or `None`) is abstracted as an oracle
`fetch : JVal → Option String`. -/

/-- `len(v)`: defined for strings, lists and dicts; raises otherwise. -/
def pyLen : JVal → Except String ℕ
  | .jstr s => .ok s.length
  | .jarr xs => .ok xs.length
  | .jobj kvs => .ok kvs.length
  | _ => .error "TypeError: object has no len"

/-- `for e in v`: lists yield their items, strings their characters, dicts
their keys; anything else raises. -/
def pyIter : JVal → Except String (List JVal)
  | .jarr xs => .ok xs
  | .jstr s => .ok (s.data.map (fun c => .jstr (String.mk [c])))
  | .jobj kvs => .ok (kvs.map (fun kv => .jstr kv.1))
  | _ => .error "TypeError: object is not iterable"

/-- `v if v is not None else d`, for int-or-None `v` under Python `or`
(`radius or 60`): `None` and `0` both fall back to the default. -/
def pyOrZ (v : Option ℤ) (d : ℤ) : ℤ :=
  match v with
  | some r => if r = 0 then d else r
  | none => d

/-- A conditionally present dict entry (`**({key: v} if ... else {})`). -/
def optChunk (key : String) (o : Option JVal) : List (String × JVal) :=
  match o with
  | some v => [(key, v)]
  | none => []

/-- The point-list sanitizer of `normalize_spec`: keep points whose `x` and
`y` both coerce; a non-dict point raises inside the guarded loop body and
is skipped (`except Exception: continue`); an empty result becomes `None`
(`points = pts or None`). -/
def sanitizePoints (v : JVal) : Option (List JVal) :=
  match v with
  | .jarr ps =>
    let pts := ps.filterMap (fun p =>
      match p with
      | .jobj pk =>
        match coerceInt (dget pk "x") none, coerceInt (dget pk "y") none with
        | some px, some py => some (JVal.jobj [("x", .jnum px), ("y", .jnum py)])
        | _, _ => none
      | _ => none)
    if pts = [] then none else some pts
  | _ => none

/-- `str(e.get("type", "")).strip().lower()`. -/
def rawType (kvs0 : List (String × JVal)) : String :=
  pyLower (pyStrip (pyStr (dgetD kvs0 "type" (.jstr ""))))

/-- One iteration of the element-normalization loop of `normalize_spec`.
A non-dict element raises (`e.get` on it is an `AttributeError`). -/
def normElement (fetch : JVal → Option String) (e : JVal) : Except String JVal :=
  match e with
  | .jobj kvs0 =>
    let t0 := rawType kvs0
    let t1 := if t0 = "rectangle" ∨ t0 = "box" then "rect" else t0
    let sq := t1 = "square"
    let size := pyOr (pyOr (pyOr (dget kvs0 "size") (dget kvs0 "width")) (dget kvs0 "height")) (.jnum 100)
    let kvs := if sq then dset (dset kvs0 "width" size) "height" size else kvs0
    let t2 := if sq then "rect" else t1
    let t3 := if t2 = "pyramid" then "triangle" else t2
    let t4 := if t3 = "oval" then "ellipse" else t3
    let t := if t4 = "arrow" then "line" else t4
    let x := (coerceInt (dget kvs "x") (some 100)).getD 100
    let y := (coerceInt (dget kvs "y") (some 100)).getD 100
    let color := pyOr (pyOr (pyOr (dget kvs "color") (dget kvs "fill")) (dget kvs "backgroundColor")) (.jstr "#1e90ff")
    let radius0 := coerceInt (pyOr (pyOr (dget kvs "radius") (dget kvs "r")) (dget kvs "size")) none
    let width0 := coerceInt (pyOr (dget kvs "width") (dget kvs "w")) none
    let height0 := coerceInt (pyOr (dget kvs "height") (dget kvs "h")) none
    let isDim := t = "rect" ∨ t = "triangle" ∨ t = "ellipse" ∨ t = "line"
    let radius := if t = "circle" then some (pyOrZ radius0 60) else radius0
    let width := if t ≠ "circle" ∧ isDim then
        some (pyOrZ width0 (if t ≠ "line" then 180 else 220)) else width0
    let height := if t ≠ "circle" ∧ isDim then
        some (pyOrZ height0 (if t ≠ "line" then 120 else 0)) else height0
    let label := pyOr (dget kvs "label") (dget kvs "text")
    let points := sanitizePoints (dget kvs "points")
    let from_point : Option JVal :=
      if t = "connector" then
        match dget kvs "from_point" with
        | .jobj fk => some (.jobj [("x", .jnum ((coerceInt (dget fk "x") (some 0)).getD 0)),
                                   ("y", .jnum ((coerceInt (dget fk "y") (some 0)).getD 0))])
        | _ => none
      else none
    let to_point : Option JVal :=
      if t = "connector" then
        match dget kvs "to_point" with
        | .jobj tk => some (.jobj [("x", .jnum ((coerceInt (dget tk "x") (some 0)).getD 0)),
                                   ("y", .jnum ((coerceInt (dget tk "y") (some 0)).getD 0))])
        | _ => none
      else none
    let src0 : JVal := if t = "image" then dget kvs "src" else .null
    let src1 := if t = "image" ∧ ¬pyTruthy src0 = true ∧ pyTruthy (dget kvs "celebrity_name") = true then
        match fetch (dget kvs "celebrity_name") with
        | some url => JVal.jstr url
        | none => src0
      else src0
    let src2 := if t = "image" ∧ ¬pyTruthy src1 = true ∧ pyTruthy (dget kvs "anatomy_term") = true then
        match fetch (dget kvs "anatomy_term") with
        | some url => JVal.jstr url
        | none => src1
      else src1
    let src3 := if t = "image" ∧ ¬pyTruthy src2 = true ∧ pyTruthy (dget kvs "geography_term") = true then
        match fetch (dget kvs "geography_term") with
        | some url => JVal.jstr url
        | none => src2
      else src2
    let fontSize := dget kvs "fontSize"
    let fontWeight := dget kvs "fontWeight"
    let textAlign := dget kvs "textAlign"
    .ok (.jobj (
      [("type", .jstr (if t = "" then "text" else t)),
       ("x", .jnum x), ("y", .jnum y)]
      ++ optChunk "radius" (radius.map (fun r => JVal.jnum r))
      ++ optChunk "width" (width.map (fun wv => JVal.jnum wv))
      ++ optChunk "height" (height.map (fun hv => JVal.jnum hv))
      ++ optChunk "label" (if pyTruthy label then some label else none)
      ++ optChunk "points" (points.map (fun pts => JVal.jarr pts))
      ++ optChunk "from_point" from_point
      ++ optChunk "to_point" to_point
      ++ optChunk "src" (if pyTruthy src3 then some src3 else none)
      ++ optChunk "fontSize" (if pyTruthy fontSize then some fontSize else none)
      ++ optChunk "fontWeight" (if pyTruthy fontWeight then some fontWeight else none)
      ++ optChunk "textAlign" (if pyTruthy textAlign then some textAlign else none)
      ++ [("color", color)]))
  | _ => .error "AttributeError: object has no attribute get"

/-- The element loop: the first raising element aborts the whole call. -/
def normElements (fetch : JVal → Option String) : List JVal → Except String (List JVal)
  | [] => .ok []
  | e :: rest =>
    match normElement fetch e with
    | .error m => .error m
    | .ok v =>
      match normElements fetch rest with
      | .error m => .error m
      | .ok vs => .ok (v :: vs)

/-- Whether `"expressions" in spec and isinstance(spec["expressions"], list)`. -/
def isListVal : Option JVal → Bool
  | some (.jarr _) => true
  | _ => false

/-- `normalize_spec(spec)`.  Note the logging line
`f"Normalizing {len(elements)} elements ..."` runs before the dispatch, so
a truthy `elements` value without `len` raises for every tag. -/
def normalize_spec (fetch : JVal → Option String) (spec : List (String × JVal)) :
    Except String (List (String × JVal)) :=
  let elementsVal := pyOr (dget spec "elements") (.jarr [])
  let visual_type := dgetD spec "visualType" (.jstr "conceptual")
  match pyLen elementsVal with
  | .error m => .error m
  | .ok _ =>
    if visual_type = .jstr "plotly" then
      if (dlookup spec "plotlySpec").isSome then
        .ok [("visualType", visual_type), ("plotlySpec", dget spec "plotlySpec")]
      else .ok [("visualType", .jstr "conceptual"), ("elements", .jarr [])]
    else if visual_type = .jstr "mermaid" then
      if (dlookup spec "mermaidCode").isSome then
        .ok [("visualType", visual_type), ("mermaidCode", dget spec "mermaidCode")]
      else .ok [("visualType", .jstr "conceptual"), ("elements", .jarr [])]
    else if visual_type = .jstr "mathematical_interactive" then
      if isListVal (dlookup spec "expressions") then
        .ok [("visualType", visual_type), ("expressions", dget spec "expressions")]
      else .ok [("visualType", visual_type), ("expression", dgetD spec "expression" (.jstr ""))]
    else if visual_type = .jstr "mathematical" then
      if isListVal (dlookup spec "expressions") then
        .ok [("visualType", visual_type), ("expressions", dget spec "expressions")]
      else if (dlookup spec "expression").isSome then
        .ok [("visualType", visual_type), ("expression", dget spec "expression")]
      else .ok [("visualType", .jstr "conceptual"), ("elements", elementsVal)]
    else
      match pyIter elementsVal with
      | .error m => .error m
      | .ok es =>
        match normElements fetch es with
        | .error m => .error m
        | .ok normed => .ok [("visualType", visual_type), ("elements", .jarr normed)]

/-! ## Fallback card (`extract_subject`, `_build_label_card`, `fallback_naive`) -/

/-- `extract_subject(command)`: strip a leading imperative verb, peel
article characters (note the source uses `lstrip` with character sets),
cap at 64 characters, title-case. -/
def extract_subject (command : String) : String :=
  let s0 := pyStrip command
  let lower := pyLower s0
  let verbs : List String :=
    ["show me ", "show ", "draw ", "visualize ", "render ", "make ", "create "]
  let s1 :=
    match verbs.find? (fun p => charsLead p.data lower.data) with
    | some p => String.mk (s0.data.drop p.length)
    | none => s0
  let s2 := pyStripSet
    (pyStrip (pyLStripSet (pyLStripSet (pyLStripSet (pyStrip s1) ['a', ' ']) ['a', 'n', ' '])
      ['t', 'h', 'e', ' ']))
    ['.', '?', '!']
  if s2 = "" then "" else pyTitle (String.mk (s2.data.take 64))

/-- `_build_label_card(subject)`: background rect plus a text label. -/
def build_label_card (subject : String) : List JVal :=
  [.jobj [("type", .jstr "rect"), ("x", .jnum 140), ("y", .jnum 120),
          ("width", .jnum 280), ("height", .jnum 140), ("color", .jstr "#e0e7ff")],
   .jobj [("type", .jstr "text"), ("x", .jnum 156), ("y", .jnum 136),
          ("label", .jstr subject), ("color", .jstr "#111827")]]

/-- `fallback_naive(command)`: keyword-based naive shape spec. -/
def fallback_naive (command : String) : JVal :=
  let text := pyLower command
  let color : JVal := .jstr
    ((["red", "blue", "green", "yellow", "purple", "orange", "black", "white"].find?
      (fun c => hasSubstr text c)).getD "#1e90ff")
  if hasSubstr text "circle" then
    .jobj [("elements", .jarr [.jobj [("type", .jstr "circle"), ("x", .jnum 200),
      ("y", .jnum 200), ("radius", .jnum 60), ("color", color)]])]
  else if containsAny text ["rectangle", "rect", "box", "square"] then
    let hval : ℚ := if hasSubstr text "square" then 160 else 100
    .jobj [("elements", .jarr [.jobj [("type", .jstr "rect"), ("x", .jnum 150),
      ("y", .jnum 150), ("width", .jnum 160), ("height", .jnum hval), ("color", color)]])]
  else if containsAny text ["triangle", "pyramid"] then
    .jobj [("elements", .jarr [.jobj [("type", .jstr "triangle"), ("x", .jnum 180),
      ("y", .jnum 160), ("width", .jnum 140), ("height", .jnum 120), ("color", color)]])]
  else if containsAny text ["ellipse", "oval"] then
    .jobj [("elements", .jarr [.jobj [("type", .jstr "ellipse"), ("x", .jnum 180),
      ("y", .jnum 160), ("width", .jnum 180), ("height", .jnum 120), ("color", color)]])]
  else if hasSubstr text "line" then
    .jobj [("elements", .jarr [.jobj [("type", .jstr "line"), ("x", .jnum 100),
      ("y", .jnum 100), ("width", .jnum 220), ("height", .jnum 0), ("color", color)]])]
  else
    let subject := if extract_subject command = "" then "Item" else extract_subject command
    .jobj [("elements", .jarr (build_label_card subject))]

/-! ## Tier configuration (`backend/services/config.py`) -/

structure TierConfig where
  llm_model : String
  use_local_llm : Bool
  local_llm_model : Option String
  daily_ai_quota : Option ℕ
  enable_images : Bool
  enable_voice : Bool

def FREE_config : TierConfig := ⟨"gpt-4o-mini", false, none, some 20, false, false⟩

def PRO_config : TierConfig := ⟨"gpt-4o", false, none, none, false, true⟩

def TEAM_config : TierConfig := ⟨"gpt-4o", false, none, none, false, true⟩

def ENTERPRISE_config : TierConfig := ⟨"gpt-4o", false, none, none, false, true⟩

/-- `get_tier_config(tier)`: `TIER_MODELS.get(tier, TIER_MODELS["FREE"])`. -/
def get_tier_config (tier : String) : TierConfig :=
  if tier = "FREE" then FREE_config
  else if tier = "PRO" then PRO_config
  else if tier = "TEAM" then TEAM_config
  else if tier = "ENTERPRISE" then ENTERPRISE_config
  else FREE_config

/-- The three environment behavior flags of `config.py` (`AI_IMAGE_FIRST`
defaults to true, the other two to false). -/
structure Flags where
  AI_IMAGE_FIRST : Bool
  AI_DISABLE_RULES : Bool
  AI_REQUIRE : Bool

/-! ## External-call branches (`backend/services/image_service.py`)

`try_generate_mermaid_diagram` performs one chat call and then a
deterministic syntax cleanup; the oracle `modelResp` stands for the final
cleaned `mermaid_code` string — which can be EMPTY (the source logs
`WARNING: mermaidCode is EMPTY!` but returns the spec anyway) — with
`none` for a missing API key or any exception.

`try_generate_image_spec` walks `models_to_try` (the configured image
model, then `dall-e-3` unless that is already the configured model) and
issues one image-generation call per model until one returns a usable
`b64_json`; the oracle maps each model name to its `b64_json` outcome
(`none` = the call raised, `some ""` = empty payload, skipped by
`if not b64: continue`).  The second component counts backend calls. -/

def try_generate_mermaid_diagram (modelResp : Option String) : Option JVal :=
  modelResp.map (fun code =>
    .jobj [("visualType", .jstr "mermaid"), ("mermaidCode", .jstr code),
           ("elements", .jarr [])])

def imageElementSpec (b64 : String) : JVal :=
  .jobj [("elements", .jarr [.jobj [("type", .jstr "image"), ("x", .jnum 100),
    ("y", .jnum 60), ("width", .jnum 512), ("height", .jnum 512),
    ("src", .jstr ("data:image/png;base64," ++ b64))]])]

def imageModelLoop : List (Option String) → ℕ → Option JVal × ℕ
  | [], n => (none, n)
  | r :: rest, n =>
    match r with
    | some b64 => if b64 ≠ "" then (some (imageElementSpec b64), n + 1)
                  else imageModelLoop rest (n + 1)
    | none => imageModelLoop rest (n + 1)

def try_generate_image_spec (hasApiKey : Bool) (imageModel : String)
    (modelResp : String → Option String) : Option JVal × ℕ :=
  if !hasApiKey then (none, 0)
  else
    let models_to_try := [imageModel] ++ (if imageModel ≠ "dall-e-3" then ["dall-e-3"] else [])
    imageModelLoop (models_to_try.map modelResp) 0

/-! ## Orchestrator (`llm_service.interpret_with_source`)

`call_openai_for_spec` (prompt assembly plus one chat call) is the oracle
`llmResp`, a function of the routing hint it receives; the result is the
parsed JSON payload or the caught exception text. -/

def math_keywords : List String :=
  ["plot", "graph", "parabola", "function", "equation", "y=", "x=",
   "tangent", "derivative", "sin", "cos", "tan", "integral"]

def comparison_keywords : List String :=
  ["compare", "vs", "versus", "which is better", "difference between", "comparison"]

def workflow_keywords : List String :=
  ["workflow", "pipeline", "process", "lifecycle", "how does", "how do",
   "steps", "stages", "procedure", "sequence"]

def hierarchy_keywords : List String :=
  ["hierarchy", "organization", "org chart", "structure", "tree", "taxonomy"]

def network_keywords : List String :=
  ["network", "connection", "relationship", "relate", "between", "connect"]

def timeseries_keywords : List String :=
  ["over time", "growth", "trend", "forecast", "historical", "change over"]

def mermaid_keywords : List String :=
  ["authentication", "oauth", "login", "api request", "http", "sequence"]

def generate_image_keywords : List String :=
  ["illustration", "drawing", "realistic", "diagram", "scene", "picture"]

structure Routing where
  is_comparison : Bool
  is_workflow : Bool
  is_hierarchy : Bool
  is_network : Bool
  is_timeseries : Bool
  use_mermaid : Bool
  needs_ai_image : Bool
  is_logo_request : Bool

/-- The keyword flags computed at the top of `interpret_with_source`. -/
def routingOf (cmd_lower : String) : Routing :=
  let is_comparison := containsAny cmd_lower comparison_keywords
  let is_workflow := containsAny cmd_lower workflow_keywords
  ⟨is_comparison,
   is_workflow,
   containsAny cmd_lower hierarchy_keywords,
   containsAny cmd_lower network_keywords && !is_comparison,
   containsAny cmd_lower timeseries_keywords,
   is_workflow && containsAny cmd_lower mermaid_keywords,
   containsAny cmd_lower generate_image_keywords,
   containsAny cmd_lower ["logo", "brand"]⟩

/-- The `routing_hint` if/elif chain. -/
def routing_hint (r : Routing) : Option String :=
  if r.is_comparison then some "comparison"
  else if r.is_workflow then some "workflow"
  else if r.is_hierarchy then some "hierarchy"
  else if r.is_timeseries then some "timeseries"
  else if r.is_network then some "network"
  else none

/-- The guard of the generative-image branch:
`enable_images and (needs_ai_image or AI_IMAGE_FIRST) and not is_logo_request`. -/
def imageBranchCond (enable_images needs_ai_image ai_image_first is_logo_request : Bool) : Bool :=
  enable_images && (needs_ai_image || ai_image_first) && !is_logo_request

structure Oracles where
  compileEval : String → Option (ℚ → Option ℚ)
  mermaidResp : Option String
  imageHasKey : Bool
  imageModel : String
  imageResp : String → Option String
  llmResp : Option String → Except String JVal
  fetchImage : JVal → Option String

/-- External-call accounting for one orchestrator run: chat calls for
diagram synthesis, image-backend calls, primary model calls, rule-engine
passes. -/
structure CallLog where
  mermaidCalls : ℕ
  imageCalls : ℕ
  llmCalls : ℕ
  ruleRuns : ℕ
  deriving DecidableEq

abbrev InterpOut := Except String (Option JVal × String × Option String) × CallLog

/-- The `try:` block around the primary model call (step 5): returns the
spec to ship with provenance `llm`, or the captured `last_error`. -/
def llm_attempt (fetch : JVal → Option String) (raw : Except String JVal) :
    JVal ⊕ Option String :=
  match raw with
  | .error e => .inr (some e)
  | .ok raw =>
    match raw with
    | .jobj kvs =>
      if pyTruthy (dget kvs "nodes") then .inl (.jobj kvs)
      else
        match normalize_spec fetch kvs with
        | .error e => .inr (some e)
        | .ok norm =>
          let visual_type := dgetD norm "visualType" (.jstr "conceptual")
          if visual_type = .jstr "plotly" then
            if pyTruthy (dget norm "plotlySpec") then .inl (.jobj norm)
            else .inr (some "LLM returned plotly type without plotlySpec")
          else if visual_type = .jstr "mermaid" then
            if pyTruthy (dget norm "mermaidCode") then .inl (.jobj norm)
            else .inr (some "LLM returned mermaid type without mermaidCode")
          else if visual_type = .jstr "mathematical" ∨ visual_type = .jstr "mathematical_interactive" then
            if pyTruthy (dget norm "expression") || pyTruthy (dget norm "expressions") then .inl (.jobj norm)
            else .inr (some ("LLM returned " ++ pyStr visual_type ++ " type without expression"))
          else
            let elements := pyOr (dget norm "elements") (.jarr [])
            if pyTruthy elements then
              match pyLen elements with
              | .error e => .inr (some e)
              | .ok n =>
                if 0 < n then .inl (.jobj norm)
                else .inr (some "LLM returned no valid visualization data")
            else .inr (some "LLM returned no valid visualization data")
    | _ => .inr (some "AttributeError: object has no attribute get")

/-- `last_error or "AI unavailable"`. -/
def orStr (le : Option String) (d : String) : String :=
  match le with
  | some s => if s = "" then d else s
  | none => d

/-- Steps 7–8: the `AI_REQUIRE` error exit or the naive fallback. -/
def interp_finish (fl : Flags) (command : String) (le : Option String)
    (log : CallLog) : InterpOut :=
  if fl.AI_REQUIRE then (.ok (none, "error", some (orStr le "AI unavailable")), log)
  else (.ok (some (fallback_naive command), "fallback", le), log)

/-- Step 6: the post-model rule retry (its parabola handler can raise, and
here nothing catches it). -/
def interp_tail (fl : Flags) (orc : Oracles) (command : String) (le : Option String)
    (m i l r : ℕ) : InterpOut :=
  if !fl.AI_DISABLE_RULES then
    match interpret_by_rules orc.compileEval command with
    | .error e => (.error e, ⟨m, i, l, r + 1⟩)
    | .ok (some spec) => (.ok (some spec, "rules", none), ⟨m, i, l, r + 1⟩)
    | .ok none => interp_finish fl command le ⟨m, i, l, r + 1⟩
  else interp_finish fl command le ⟨m, i, l, r⟩

/-- Step 5: one primary model call. -/
def interp_llm (fl : Flags) (orc : Oracles) (command : String) (hint : Option String)
    (m i r : ℕ) : InterpOut :=
  match llm_attempt orc.fetchImage (orc.llmResp hint) with
  | .inl spec => (.ok (some spec, "llm", none), ⟨m, i, 1, r⟩)
  | .inr le => interp_tail fl orc command le m i 1 r

/-- Step 4: the generative-image branch (the routing hint, computed between
the image branch and the model call in the source, is pure and only feeds
the model call). -/
def interp_image (fl : Flags) (orc : Oracles) (command : String) (rt : Routing)
    (enable_images : Bool) (m r : ℕ) : InterpOut :=
  let hint := routing_hint rt
  if imageBranchCond enable_images rt.needs_ai_image fl.AI_IMAGE_FIRST rt.is_logo_request then
    match try_generate_image_spec orc.imageHasKey orc.imageModel orc.imageResp with
    | (some spec, n) => (.ok (some spec, "image", none), ⟨m, n, 0, r⟩)
    | (none, n) => interp_llm fl orc command hint m n r
  else interp_llm fl orc command hint m 0 r

/-- Steps 2–3: routing classification and the Mermaid sequence-diagram
branch (the network flag does not short-circuit; it falls through to the
model call). -/
def interp_route (fl : Flags) (orc : Oracles) (command cmd_lower : String)
    (is_math enable_images : Bool) (r0 : ℕ) : InterpOut :=
  let rt := routingOf cmd_lower
  if !is_math && rt.use_mermaid then
    match try_generate_mermaid_diagram orc.mermaidResp with
    | some spec => (.ok (some spec, "mermaid", none), ⟨1, 0, 0, r0⟩)
    | none => interp_image fl orc command rt enable_images 1 r0
  else interp_image fl orc command rt enable_images 0 r0

/-- `interpret_with_source(command, user_context, subscription_tier)`:
returns `(spec, source, error)` plus the call accounting.  The
user-context string only shapes the prompt inside the model-call oracle. -/
def interpret_with_source (fl : Flags) (orc : Oracles)
    (command subscription_tier : String) : InterpOut :=
  let tier_config := get_tier_config subscription_tier
  let enable_images := tier_config.enable_images
  let cmd_lower := pyLower command
  let is_math := containsAny cmd_lower math_keywords
  if is_math && !fl.AI_DISABLE_RULES then
    match interpret_by_rules orc.compileEval command with
    | .error e => (.error e, ⟨0, 0, 0, 1⟩)
    | .ok (some rule_spec) => (.ok (some rule_spec, "rules", none), ⟨0, 0, 0, 1⟩)
    | .ok none => interp_route fl orc command cmd_lower is_math enable_images 1
  else interp_route fl orc command cmd_lower is_math enable_images 0

/-! ## General lemmas -/

theorem dlookup_append (l1 l2 : List (String × JVal)) (k : String) :
    dlookup (l1 ++ l2) k =
      match dlookup l1 k with
      | some v => some v
      | none => dlookup l2 k := by
  induction l1 with
  | nil => simp [dlookup]
  | cons hd tl ih =>
    obtain ⟨k1, v1⟩ := hd
    by_cases h : k1 = k
    · simp [dlookup, h]
    · simp [dlookup, h, ih]

theorem dlookup_optChunk_ne (key : String) (o : Option JVal) (k : String) (h : ¬ key = k) :
    dlookup (optChunk key o) k = none := by
  cases o <;> simp [optChunk, dlookup, h]

theorem dlookup_optChunk_self (key : String) (o : Option JVal) :
    dlookup (optChunk key o) key = o := by
  cases o <;> simp [optChunk, dlookup]

theorem polyPoints_length (fn : ℚ → Option ℚ) (x0 x1 : ℚ) (n : ℕ) :
    (polyPoints fn x0 x1 n).length = n := by
  unfold polyPoints
  rw [List.length_map, List.length_range]

/-- Every element of a list of dict elements normalizes without raising,
preserving length and positions. -/
theorem normElements_ok (fetch : JVal → Option String) (es : List JVal)
    (h : ∀ e ∈ es, ∃ k, e = JVal.jobj k) :
    ∃ vs, normElements fetch es = .ok vs ∧ vs.length = es.length ∧
      ∀ (j : ℕ) (e : JVal), es[j]? = some e →
        ∃ o : JVal, normElement fetch e = .ok o ∧ vs[j]? = some o := by
  induction es with
  | nil =>
    refine ⟨[], rfl, rfl, ?_⟩
    intro j e hj
    simp at hj
  | cons hd tl ih =>
    obtain ⟨k, hk⟩ := h hd (by simp)
    obtain ⟨vs, hvs, hlen, hidx⟩ := ih (fun e he => h e (by simp [he]))
    subst hk
    have hres : ∃ o, normElement fetch (JVal.jobj k) = .ok o := ⟨_, rfl⟩
    obtain ⟨o, ho⟩ := hres
    refine ⟨o :: vs, ?_, by simp [hlen], ?_⟩
    · simp [normElements, ho, hvs]
    · intro j e hj
      cases j with
      | zero =>
        simp at hj
        subst hj
        exact ⟨o, ho, by simp⟩
      | succ j2 =>
        simp at hj ⊢
        exact hidx j2 e hj

/-- Every tier in the shipped table has image generation disabled. -/
theorem get_tier_config_images_off (tier : String) :
    (get_tier_config tier).enable_images = false := by
  unfold get_tier_config
  split_ifs <;> rfl

/-! ## Orchestrator stage lemmas -/

theorem interp_finish_log (fl : Flags) (c : String) (le : Option String) (log : CallLog) :
    (interp_finish fl c le log).2 = log := by
  unfold interp_finish
  split <;> rfl

theorem interp_tail_log (fl : Flags) (orc : Oracles) (c : String) (le : Option String)
    (m i l r : ℕ) :
    (interp_tail fl orc c le m i l r).2 = ⟨m, i, l, r + 1⟩ ∨
    (interp_tail fl orc c le m i l r).2 = ⟨m, i, l, r⟩ := by
  by_cases hd : fl.AI_DISABLE_RULES
  · right
    simp [interp_tail, hd, interp_finish_log]
  · cases hr : interpret_by_rules orc.compileEval c with
    | error e => left; simp [interp_tail, hd, hr]
    | ok o =>
      cases o with
      | some spec => left; simp [interp_tail, hd, hr]
      | none => left; simp [interp_tail, hd, hr, interp_finish_log]

theorem interp_llm_log (fl : Flags) (orc : Oracles) (c : String) (hint : Option String)
    (m i r : ℕ) :
    (interp_llm fl orc c hint m i r).2 = ⟨m, i, 1, r⟩ ∨
    (interp_llm fl orc c hint m i r).2 = ⟨m, i, 1, r + 1⟩ := by
  cases ha : llm_attempt orc.fetchImage (orc.llmResp hint) with
  | inl spec => left; simp [interp_llm, ha]
  | inr le =>
    rcases interp_tail_log fl orc c le m i 1 r with h | h
    · right; simp [interp_llm, ha, h]
    · left; simp [interp_llm, ha, h]

theorem interp_image_log_disabled (fl : Flags) (orc : Oracles) (c : String) (rt : Routing)
    (m r : ℕ) :
    (interp_image fl orc c rt false m r).2 = ⟨m, 0, 1, r⟩ ∨
    (interp_image fl orc c rt false m r).2 = ⟨m, 0, 1, r + 1⟩ := by
  have hc : imageBranchCond false rt.needs_ai_image fl.AI_IMAGE_FIRST rt.is_logo_request = false := by
    simp [imageBranchCond]
  simp only [interp_image, hc, Bool.false_eq_true, if_false]
  exact interp_llm_log fl orc c (routing_hint rt) m 0 r

theorem interp_route_log_disabled (fl : Flags) (orc : Oracles) (c cl : String)
    (im : Bool) (r0 : ℕ) :
    ∃ mm l rr, (interp_route fl orc c cl im false r0).2 = ⟨mm, 0, l, rr⟩ ∧
      mm ≤ 1 ∧ l ≤ 1 ∧ rr ≤ r0 + 1 := by
  by_cases hb : (!im && (routingOf cl).use_mermaid) = true
  · cases hm : try_generate_mermaid_diagram orc.mermaidResp with
    | some spec => exact ⟨1, 0, r0, by simp [interp_route, hb, hm], by simp, by simp, by simp⟩
    | none =>
      rcases interp_image_log_disabled fl orc c (routingOf cl) 1 r0 with h | h
      · exact ⟨1, 1, r0, by simp [interp_route, hb, hm, h], by simp, by simp, by simp⟩
      · exact ⟨1, 1, r0 + 1, by simp [interp_route, hb, hm, h], by simp, by simp, by simp⟩
  · rcases interp_image_log_disabled fl orc c (routingOf cl) 0 r0 with h | h
    · exact ⟨0, 1, r0, by simp [interp_route, hb, h], by simp, by simp, by simp⟩
    · exact ⟨0, 1, r0 + 1, by simp [interp_route, hb, h], by simp, by simp, by simp⟩

/-- Call accounting for a whole run: no image call is ever made (every tier
disables them), at most one diagram call, at most one model call, at most
two rule passes. -/
theorem interpret_with_source_log (fl : Flags) (orc : Oracles) (cmd tier : String) :
    ∃ mm l rr, (interpret_with_source fl orc cmd tier).2 = ⟨mm, 0, l, rr⟩ ∧
      mm ≤ 1 ∧ l ≤ 1 ∧ rr ≤ 2 := by
  unfold interpret_with_source
  simp only [get_tier_config_images_off]
  split
  · cases hr : interpret_by_rules orc.compileEval cmd with
    | error e => exact ⟨0, 0, 1, by simp [hr], by simp, by simp, by simp⟩
    | ok o =>
      cases o with
      | some spec => exact ⟨0, 0, 1, by simp [hr], by simp, by simp, by simp⟩
      | none =>
        obtain ⟨mm, l, rr, hlog, h1, h2, h3⟩ :=
          interp_route_log_disabled fl orc cmd (pyLower cmd)
            (containsAny (pyLower cmd) math_keywords) 1
        exact ⟨mm, l, rr, by simp [hr, hlog], h1, h2, by omega⟩
  · obtain ⟨mm, l, rr, hlog, h1, h2, h3⟩ :=
      interp_route_log_disabled fl orc cmd (pyLower cmd)
        (containsAny (pyLower cmd) math_keywords) 0
    exact ⟨mm, l, rr, by simp [hlog], h1, h2, by omega⟩

/-! ## Claim theorems -/

/-- C7: routing derives at most one hint (`routing_hint` is an `Option`
chosen by the if/elif chain), with priority comparison > workflow >
hierarchy > time-series > network; in particular a command containing a
comparison keyword has the network flag suppressed and hint
`"comparison"`, even when relational keywords are present. -/
theorem C7_routing_priority (s : String) :
    (containsAny s comparison_keywords = true →
      (routingOf s).is_network = false ∧ routing_hint (routingOf s) = some "comparison") ∧
    (routing_hint (routingOf s) = some "workflow" → (routingOf s).is_comparison = false) ∧
    (routing_hint (routingOf s) = some "hierarchy" →
      (routingOf s).is_comparison = false ∧ (routingOf s).is_workflow = false) ∧
    (routing_hint (routingOf s) = some "timeseries" →
      (routingOf s).is_comparison = false ∧ (routingOf s).is_workflow = false ∧
      (routingOf s).is_hierarchy = false) ∧
    (routing_hint (routingOf s) = some "network" →
      (routingOf s).is_comparison = false ∧ (routingOf s).is_workflow = false ∧
      (routingOf s).is_hierarchy = false ∧ (routingOf s).is_timeseries = false) := by
  by_cases hc : containsAny s comparison_keywords <;>
  by_cases hw : containsAny s workflow_keywords <;>
  by_cases hh : containsAny s hierarchy_keywords <;>
  by_cases ht : containsAny s timeseries_keywords <;>
    simp [routingOf, routing_hint, hc, hw, hh, ht]

/-- Witness for C7 at a concrete relational comparison command. -/
theorem C7_routing_priority_witness :
    (routingOf "compare the relationship between a and b").is_network = false ∧
    routing_hint (routingOf "compare the relationship between a and b") = some "comparison" :=
  (C7_routing_priority "compare the relationship between a and b").1 (by decide)

/-- C9 counterexample: for a tier configuration with image generation
permitted (`enable_images = true`, a value the claim explicitly includes)
and the global image-first flag on, the image branch IS taken for
`"compare iphone vs samsung sales"` even though no image keyword set the
image-needed flag — the path is taken solely because of the global flag,
contradicting the claim. -/
theorem C9_counterexample :
    (routingOf "compare iphone vs samsung sales").is_comparison = true ∧
    (routingOf "compare iphone vs samsung sales").needs_ai_image = false ∧
    (routingOf "compare iphone vs samsung sales").is_logo_request = false ∧
    interp_image ⟨true, false, false⟩
        ⟨fun _ => none, none, true, "gpt-image-1", fun _ => some "IMGDATA",
         fun _ => .error "unused", fun _ => none⟩
        "compare iphone vs samsung sales" (routingOf "compare iphone vs samsung sales")
        true 0 0 =
      (.ok (some (imageElementSpec "IMGDATA"), "image", none), ⟨0, 1, 0, 0⟩) :=
  ⟨rfl, rfl, rfl, rfl⟩

/-- C9 amended: every tier of the shipped table disables image generation,
so through `interpret_with_source` no image-backend call is ever attempted
(for comparison commands or any other), and a comparison keyword yields
hint `"comparison"` while leaving the image-needed flag the pure function
of the illustration keywords; but a hypothetical image-enabled tier
combined with the global image-first flag does take the image path (see
the counterexample). -/
theorem C9_comparison_image_path (fl : Flags) (orc : Oracles) (cmd tier : String) :
    (get_tier_config tier).enable_images = false ∧
    (containsAny (pyLower cmd) comparison_keywords = true →
      routing_hint (routingOf (pyLower cmd)) = some "comparison" ∧
      (routingOf (pyLower cmd)).needs_ai_image =
        containsAny (pyLower cmd) generate_image_keywords) ∧
    (interpret_with_source fl orc cmd tier).2.imageCalls = 0 := by
  refine ⟨get_tier_config_images_off tier, ?_, ?_⟩
  · intro hc
    exact ⟨by simp [routingOf, routing_hint, hc], by simp [routingOf]⟩
  · obtain ⟨mm, l, rr, hlog, _, _, _⟩ := interpret_with_source_log fl orc cmd tier
    rw [hlog]

/-- Witness for C9 amended at the spec's own example command. -/
theorem C9_comparison_image_path_witness :
    routing_hint (routingOf (pyLower "compare iphone vs samsung sales")) = some "comparison" ∧
    (interpret_with_source ⟨true, false, false⟩
        ⟨fun _ => none, none, false, "gpt-image-1", fun _ => none,
         fun _ => .error "x", fun _ => none⟩
        "compare iphone vs samsung sales" "PRO").2.imageCalls = 0 :=
  ⟨((C9_comparison_image_path ⟨true, false, false⟩
      ⟨fun _ => none, none, false, "gpt-image-1", fun _ => none,
       fun _ => .error "x", fun _ => none⟩
      "compare iphone vs samsung sales" "PRO").2.1 (by decide)).1,
   (C9_comparison_image_path ⟨true, false, false⟩
      ⟨fun _ => none, none, false, "gpt-image-1", fun _ => none,
       fun _ => .error "x", fun _ => none⟩
      "compare iphone vs samsung sales" "PRO").2.2⟩

/-- C5: one orchestrator run attempts at most one diagram-synthesis call,
at most one image-backend call (in fact none, since every shipped tier
disables images), at most one primary model call and at most two
rule-engine passes, so at most three external calls excluding named-entity
lookups. -/
theorem C5_chain_bounded (fl : Flags) (orc : Oracles) (cmd tier : String) :
    (interpret_with_source fl orc cmd tier).2.mermaidCalls ≤ 1 ∧
    (interpret_with_source fl orc cmd tier).2.imageCalls ≤ 1 ∧
    (interpret_with_source fl orc cmd tier).2.llmCalls ≤ 1 ∧
    (interpret_with_source fl orc cmd tier).2.ruleRuns ≤ 2 ∧
    (interpret_with_source fl orc cmd tier).2.mermaidCalls +
      (interpret_with_source fl orc cmd tier).2.imageCalls +
      (interpret_with_source fl orc cmd tier).2.llmCalls ≤ 3 := by
  obtain ⟨mm, l, rr, hlog, h1, h2, h3⟩ := interpret_with_source_log fl orc cmd tier
  rw [hlog]
  exact ⟨h1, by simp, h2, h3, by simpa using by omega⟩

theorem interp_finish_src (fl : Flags) (c : String) (le : Option String) (log : CallLog)
    (spec : Option JVal) (src : String) (err : Option String)
    (h : (interp_finish fl c le log).1 = .ok (spec, src, err)) :
    (src = "error" → fl.AI_REQUIRE = true ∧ spec = none ∧ err.isSome = true) ∧
    (¬ src = "error" → spec.isSome = true) := by
  by_cases hq : fl.AI_REQUIRE
  · simp only [interp_finish, hq, if_true] at h
    simp only [Except.ok.injEq, Prod.mk.injEq] at h
    obtain ⟨h1, h2, h3⟩ := h
    refine ⟨fun _ => ⟨hq, h1.symm, ?_⟩, fun hne => absurd h2.symm hne⟩
    rw [← h3]
    rfl
  · simp only [interp_finish, hq, if_false, Bool.false_eq_true] at h
    simp only [Except.ok.injEq, Prod.mk.injEq] at h
    obtain ⟨h1, h2, _⟩ := h
    refine ⟨fun hc => absurd (h2.trans hc) (by simp), fun _ => ?_⟩
    rw [← h1]
    rfl

theorem interp_tail_src (fl : Flags) (orc : Oracles) (c : String) (le : Option String)
    (m i l r : ℕ) (spec : Option JVal) (src : String) (err : Option String)
    (h : (interp_tail fl orc c le m i l r).1 = .ok (spec, src, err)) :
    (src = "error" → fl.AI_REQUIRE = true ∧ spec = none ∧ err.isSome = true) ∧
    (¬ src = "error" → spec.isSome = true) := by
  by_cases hd : fl.AI_DISABLE_RULES
  · simp only [interp_tail, hd, Bool.not_true, Bool.false_eq_true, if_false] at h
    exact interp_finish_src fl c le ⟨m, i, l, r⟩ spec src err h
  · cases hr : interpret_by_rules orc.compileEval c with
    | error e =>
      simp [interp_tail, hd, hr] at h
    | ok o =>
      cases o with
      | some rspec =>
        simp only [interp_tail, hd, Bool.not_false, if_true, hr] at h
        simp only [Except.ok.injEq, Prod.mk.injEq] at h
        obtain ⟨h1, h2, _⟩ := h
        refine ⟨fun hc => absurd (h2.trans hc) (by simp), fun _ => ?_⟩
        rw [← h1]
        rfl
      | none =>
        simp only [interp_tail, hd, Bool.not_false, if_true, hr] at h
        exact interp_finish_src fl c le ⟨m, i, l, r + 1⟩ spec src err h

theorem interp_llm_src (fl : Flags) (orc : Oracles) (c : String) (hint : Option String)
    (m i r : ℕ) (spec : Option JVal) (src : String) (err : Option String)
    (h : (interp_llm fl orc c hint m i r).1 = .ok (spec, src, err)) :
    (src = "error" → fl.AI_REQUIRE = true ∧ spec = none ∧ err.isSome = true) ∧
    (¬ src = "error" → spec.isSome = true) := by
  cases ha : llm_attempt orc.fetchImage (orc.llmResp hint) with
  | inl s =>
    simp only [interp_llm, ha] at h
    simp only [Except.ok.injEq, Prod.mk.injEq] at h
    obtain ⟨h1, h2, _⟩ := h
    refine ⟨fun hc => absurd (h2.trans hc) (by simp), fun _ => ?_⟩
    rw [← h1]
    rfl
  | inr le =>
    simp only [interp_llm, ha] at h
    exact interp_tail_src fl orc c le m i 1 r spec src err h

theorem interp_image_src (fl : Flags) (orc : Oracles) (c : String) (rt : Routing)
    (en : Bool) (m r : ℕ) (spec : Option JVal) (src : String) (err : Option String)
    (h : (interp_image fl orc c rt en m r).1 = .ok (spec, src, err)) :
    (src = "error" → fl.AI_REQUIRE = true ∧ spec = none ∧ err.isSome = true) ∧
    (¬ src = "error" → spec.isSome = true) := by
  by_cases hb : imageBranchCond en rt.needs_ai_image fl.AI_IMAGE_FIRST rt.is_logo_request = true
  · cases hi : try_generate_image_spec orc.imageHasKey orc.imageModel orc.imageResp with
    | mk ospec n =>
      cases ospec with
      | some s =>
        simp only [interp_image, hb, if_true, hi] at h
        simp only [Except.ok.injEq, Prod.mk.injEq] at h
        obtain ⟨h1, h2, _⟩ := h
        refine ⟨fun hc => absurd (h2.trans hc) (by simp), fun _ => ?_⟩
        rw [← h1]
        rfl
      | none =>
        simp only [interp_image, hb, if_true, hi] at h
        exact interp_llm_src fl orc c (routing_hint rt) m n r spec src err h
  · simp only [interp_image, hb, if_false] at h
    exact interp_llm_src fl orc c (routing_hint rt) m 0 r spec src err h

theorem interp_route_src (fl : Flags) (orc : Oracles) (c cl : String) (im en : Bool)
    (r0 : ℕ) (spec : Option JVal) (src : String) (err : Option String)
    (h : (interp_route fl orc c cl im en r0).1 = .ok (spec, src, err)) :
    (src = "error" → fl.AI_REQUIRE = true ∧ spec = none ∧ err.isSome = true) ∧
    (¬ src = "error" → spec.isSome = true) := by
  by_cases hb : (!im && (routingOf cl).use_mermaid) = true
  · cases hm : try_generate_mermaid_diagram orc.mermaidResp with
    | some s =>
      simp only [interp_route, hb, if_true, hm] at h
      simp only [Except.ok.injEq, Prod.mk.injEq] at h
      obtain ⟨h1, h2, _⟩ := h
      refine ⟨fun hc => absurd (h2.trans hc) (by simp), fun _ => ?_⟩
      rw [← h1]
      rfl
    | none =>
      simp only [interp_route, hb, if_true, hm] at h
      exact interp_image_src fl orc c (routingOf cl) en 1 r0 spec src err h
  · simp only [interp_route, hb, if_false] at h
    exact interp_image_src fl orc c (routingOf cl) en 0 r0 spec src err h

/-- C6 amended: the caller receives `(none, "error", message)` only when
`AI_REQUIRE` is set (and then the message is always present: the last
captured diagnostic or the `"AI unavailable"` default); with any other
source tag — including `"rules"` when the rule engine rescues a command
after every AI-backed branch failed — the caller receives a spec. -/
theorem C6_error_contract (fl : Flags) (orc : Oracles) (cmd tier : String)
    (spec : Option JVal) (src : String) (err : Option String)
    (h : (interpret_with_source fl orc cmd tier).1 = .ok (spec, src, err)) :
    (src = "error" → fl.AI_REQUIRE = true ∧ spec = none ∧ err.isSome = true) ∧
    (¬ src = "error" → spec.isSome = true) := by
  unfold interpret_with_source at h
  by_cases hi : (containsAny (pyLower cmd) math_keywords && !fl.AI_DISABLE_RULES) = true
  · rw [if_pos hi] at h
    cases hr : interpret_by_rules orc.compileEval cmd with
    | error e => rw [hr] at h; simp at h
    | ok o =>
      cases o with
      | some rspec =>
        rw [hr] at h
        simp only [Except.ok.injEq, Prod.mk.injEq] at h
        obtain ⟨h1, h2, _⟩ := h
        refine ⟨fun hc => absurd (h2.trans hc) (by simp), fun _ => ?_⟩
        rw [← h1]
        rfl
      | none =>
        rw [hr] at h
        exact interp_route_src fl orc cmd (pyLower cmd)
          (containsAny (pyLower cmd) math_keywords)
          (get_tier_config tier).enable_images 1 spec src err h
  · rw [if_neg hi] at h
    exact interp_route_src fl orc cmd (pyLower cmd)
      (containsAny (pyLower cmd) math_keywords)
      (get_tier_config tier).enable_images 0 spec src err h

/-- C6 counterexample: with `AI_REQUIRE` enabled, the diagram branch and
the model branch both attempted and failed (and the image branch disabled
as on every tier), the caller does NOT receive the unavailability signal —
the rule-engine retry rescues the command and a `"rules"` spec is
returned, contradicting the claim that an all-AI-failure under the policy
yields the error signal. -/
theorem C6_counterexample :
    interpret_with_source ⟨false, false, true⟩
        ⟨fun _ => none, none, false, "gpt-image-1", fun _ => none,
         fun _ => .error "provider down", fun _ => none⟩
        "login workflow flowchart" "FREE" =
      (.ok (try_flowchart "login workflow flowchart", "rules", none), ⟨1, 0, 1, 1⟩) ∧
    (⟨false, false, true⟩ : Flags).AI_REQUIRE = true ∧
    try_generate_mermaid_diagram none = none := by
  exact ⟨rfl, rfl, rfl⟩

/-- Witness for C6 amended: a failing model call without `AI_REQUIRE`
yields the naive fallback spec, which is present. -/
theorem C6_error_contract_witness :
    (some (fallback_naive "draw a red circle")).isSome = true :=
  (C6_error_contract ⟨true, false, false⟩
      ⟨fun _ => none, none, false, "gpt-image-1", fun _ => none,
       fun _ => .error "boom", fun _ => none⟩
      "draw a red circle" "FREE"
      (some (fallback_naive "draw a red circle")) "fallback" (some "boom")
      (by rfl)).2 (by simp)

/-- Every successful `normalize_spec` result has one of five shapes. -/
theorem normalize_spec_shapes (fetch : JVal → Option String) (spec : List (String × JVal))
    (r : List (String × JVal)) (h : normalize_spec fetch spec = .ok r) :
    (∃ v, r = [("visualType", JVal.jstr "conceptual"), ("elements", v)]) ∨
    (∃ p, r = [("visualType", JVal.jstr "plotly"), ("plotlySpec", p)]) ∨
    (∃ c, r = [("visualType", JVal.jstr "mermaid"), ("mermaidCode", c)]) ∨
    (∃ vt e, (vt = JVal.jstr "mathematical" ∨ vt = JVal.jstr "mathematical_interactive") ∧
      (r = [("visualType", vt), ("expression", e)] ∨
       r = [("visualType", vt), ("expressions", e)])) ∨
    (∃ vt es, r = [("visualType", vt), ("elements", es)] ∧
      ¬ vt = JVal.jstr "plotly" ∧ ¬ vt = JVal.jstr "mermaid" ∧
      ¬ vt = JVal.jstr "mathematical" ∧ ¬ vt = JVal.jstr "mathematical_interactive") := by
  simp only [normalize_spec] at h
  cases hlen : pyLen (pyOr (dget spec "elements") (.jarr [])) with
  | error m => rw [hlen] at h; simp at h
  | ok n =>
    rw [hlen] at h
    by_cases h1 : dgetD spec "visualType" (.jstr "conceptual") = .jstr "plotly"
    · rw [if_pos h1] at h
      by_cases h2 : (dlookup spec "plotlySpec").isSome = true
      · rw [if_pos h2] at h
        simp only [Except.ok.injEq] at h
        right; left
        exact ⟨dget spec "plotlySpec", by rw [← h, h1]⟩
      · rw [if_neg h2] at h
        simp only [Except.ok.injEq] at h
        left
        exact ⟨.jarr [], h.symm⟩
    · rw [if_neg h1] at h
      by_cases h2 : dgetD spec "visualType" (.jstr "conceptual") = .jstr "mermaid"
      · rw [if_pos h2] at h
        by_cases h3 : (dlookup spec "mermaidCode").isSome = true
        · rw [if_pos h3] at h
          simp only [Except.ok.injEq] at h
          right; right; left
          exact ⟨dget spec "mermaidCode", by rw [← h, h2]⟩
        · rw [if_neg h3] at h
          simp only [Except.ok.injEq] at h
          left
          exact ⟨.jarr [], h.symm⟩
      · rw [if_neg h2] at h
        by_cases h3 : dgetD spec "visualType" (.jstr "conceptual") = .jstr "mathematical_interactive"
        · rw [if_pos h3] at h
          by_cases h4 : isListVal (dlookup spec "expressions") = true
          · rw [if_pos h4] at h
            simp only [Except.ok.injEq] at h
            right; right; right; left
            exact ⟨_, dget spec "expressions", Or.inr h3, Or.inr (by rw [← h])⟩
          · rw [if_neg h4] at h
            simp only [Except.ok.injEq] at h
            right; right; right; left
            exact ⟨_, dgetD spec "expression" (.jstr ""), Or.inr h3, Or.inl (by rw [← h])⟩
        · rw [if_neg h3] at h
          by_cases h4 : dgetD spec "visualType" (.jstr "conceptual") = .jstr "mathematical"
          · rw [if_pos h4] at h
            by_cases h5 : isListVal (dlookup spec "expressions") = true
            · rw [if_pos h5] at h
              simp only [Except.ok.injEq] at h
              right; right; right; left
              exact ⟨_, dget spec "expressions", Or.inl h4, Or.inr (by rw [← h])⟩
            · rw [if_neg h5] at h
              by_cases h6 : (dlookup spec "expression").isSome = true
              · rw [if_pos h6] at h
                simp only [Except.ok.injEq] at h
                right; right; right; left
                exact ⟨_, dget spec "expression", Or.inl h4, Or.inl (by rw [← h])⟩
              · rw [if_neg h6] at h
                simp only [Except.ok.injEq] at h
                left
                exact ⟨_, h.symm⟩
          · rw [if_neg h4] at h
            cases hit : pyIter (pyOr (dget spec "elements") (.jarr [])) with
            | error m => rw [hit] at h; simp at h
            | ok es =>
              rw [hit] at h
              cases hne : normElements fetch es with
              | error m => simp [hne] at h
              | ok normed =>
                simp only [hne, Except.ok.injEq] at h
                right; right; right; right
                exact ⟨_, .jarr normed, h.symm, h1, h2, h4, h3⟩

/-- C1 amended: a spec leaving the Normalizer carries its tag's payload KEY
whenever it is tagged plotly/mermaid/mathematical/mathematical-interactive
(a missing payload key is downgraded to `conceptual`), but emptiness of
the payload is not checked — and the diagram-synthesis branch can hand the
caller a mermaid spec whose diagram string is empty (see the
counterexample). -/
theorem C1_tag_payload (fetch : JVal → Option String) (spec r : List (String × JVal))
    (h : normalize_spec fetch spec = .ok r) :
    (dlookup r "visualType" = some (.jstr "mermaid") →
      (dlookup r "mermaidCode").isSome = true) ∧
    (dlookup r "visualType" = some (.jstr "plotly") →
      (dlookup r "plotlySpec").isSome = true) ∧
    (dlookup r "visualType" = some (.jstr "mathematical") →
      (dlookup r "expression").isSome = true ∨ (dlookup r "expressions").isSome = true) ∧
    (dlookup r "visualType" = some (.jstr "mathematical_interactive") →
      (dlookup r "expression").isSome = true ∨ (dlookup r "expressions").isSome = true) := by
  rcases normalize_spec_shapes fetch spec r h with
    ⟨v, rfl⟩ | ⟨p, rfl⟩ | ⟨c, rfl⟩ | ⟨vt, e, hvt, hr | hr⟩ | ⟨vt, es, rfl, n1, n2, n3, n4⟩
  · simp [dlookup]
  · simp [dlookup]
  · simp [dlookup]
  · subst hr
    rcases hvt with rfl | rfl <;> simp [dlookup]
  · subst hr
    rcases hvt with rfl | rfl <;> simp [dlookup]
  · simp only [dlookup, if_pos, if_neg]
    refine ⟨fun hc => ?_, fun hc => ?_, fun hc => ?_, fun hc => ?_⟩ <;>
      · simp [dlookup] at hc
        first
        | exact absurd hc n2 | exact absurd hc n1 | exact absurd hc n3 | exact absurd hc n4

/-- C1 counterexample: the pipeline returns a mermaid-tagged spec whose
diagram string is empty.  The command routes to the Mermaid branch, the
(abstracted) model call produces an empty cleaned diagram, and
`try_generate_mermaid_diagram` returns the spec anyway (the source merely
logs `WARNING: mermaidCode is EMPTY!`); the Normalizer is bypassed. -/
theorem C1_counterexample :
    (interpret_with_source ⟨true, false, false⟩
        ⟨fun _ => none, some "", false, "gpt-image-1", fun _ => none,
         fun _ => .error "x", fun _ => none⟩
        "oauth login workflow" "FREE").1 =
      .ok (some (.jobj [("visualType", .jstr "mermaid"), ("mermaidCode", .jstr ""),
                        ("elements", .jarr [])]),
           "mermaid", none) ∧
    pyTruthy (JVal.jstr "") = false :=
  ⟨rfl, rfl⟩

/-- Witness for C1 amended at a concrete mermaid payload. -/
theorem C1_tag_payload_witness :
    (dlookup [("visualType", JVal.jstr "mermaid"), ("mermaidCode", JVal.jstr "graph TD")]
      "mermaidCode").isSome = true :=
  (C1_tag_payload (fun _ => none)
      [("visualType", JVal.jstr "mermaid"), ("mermaidCode", JVal.jstr "graph TD")]
      [("visualType", JVal.jstr "mermaid"), ("mermaidCode", JVal.jstr "graph TD")]
      (by rfl)).1 (by rfl)

/-- The resolved raw type of an element with a string `type` field. -/
theorem rawType_eq (kvs0 : List (String × JVal)) (s : String)
    (h : dlookup kvs0 "type" = some (.jstr s)) :
    rawType kvs0 = pyLower (pyStrip s) := by
  simp [rawType, dgetD, pyStr, h]

/-- `round()` of an integral rational is its numerator. -/
theorem roundHalfEven_den_one (q : ℚ) (h : q.den = 1) : roundHalfEven q = q.num := by
  unfold roundHalfEven
  have hf : q.floor = q.num := by simp [Rat.floor, h]
  rw [hf]
  have hz : q - (q.num : ℚ) = 0 := by
    rw [(Rat.den_eq_one_iff q).mp h]
    exact sub_self q
  simp only [hz]
  norm_num

/-- `_coerce_int` of an integral float is its numerator. -/
theorem coerceInt_jnum (q : ℚ) (d : Option ℤ) (h : q.den = 1) :
    coerceInt (.jnum q) d = some q.num := by
  simp [coerceInt, pyFloat, roundHalfEven_den_one q h]

/-- `_coerce_int(None, d) = d`. -/
theorem coerceInt_null (d : Option ℤ) : coerceInt .null d = d := rfl

/-- C3 counterexample: a payload whose elements list contains a non-dict
entry makes `normalize_spec` raise (`e.get` on the int is an
`AttributeError`), so it is not total as claimed. -/
theorem C3_counterexample :
    normalize_spec (fun _ => none) [("elements", JVal.jarr [JVal.jnum 5])] =
      .error "AttributeError: object has no attribute get" := rfl

/-- C3 amended: `normalize_spec` returns a tagged spec (never raises) for
every payload dict whose `elements` value — after the `or []` default — is
an array of dicts, whatever the types of the element fields; a non-dict
entry in the array raises (see the counterexample), as does a truthy
non-sized `elements` value. -/
theorem C3_total_on_dict_elements (fetch : JVal → Option String)
    (spec : List (String × JVal)) (es : List JVal)
    (helems : pyOr (dget spec "elements") (.jarr []) = .jarr es)
    (hobj : ∀ e ∈ es, ∃ k, e = JVal.jobj k) :
    ∃ r, normalize_spec fetch spec = .ok r ∧ (dlookup r "visualType").isSome = true := by
  obtain ⟨vs, hvs, _, _⟩ := normElements_ok fetch es hobj
  simp only [normalize_spec, helems, pyLen, pyIter, hvs]
  split_ifs <;> exact ⟨_, rfl, by simp [dlookup]⟩

/-- Witness for C3 amended at a statistical payload with one circle. -/
theorem C3_total_on_dict_elements_witness :
    ∃ r, normalize_spec (fun _ => none)
        [("visualType", JVal.jstr "statistical"),
         ("elements", JVal.jarr [JVal.jobj [("type", JVal.jstr "circle")]])] = .ok r ∧
      (dlookup r "visualType").isSome = true :=
  C3_total_on_dict_elements (fun _ => none)
    [("visualType", JVal.jstr "statistical"),
     ("elements", JVal.jarr [JVal.jobj [("type", JVal.jstr "circle")]])]
    [JVal.jobj [("type", JVal.jstr "circle")]] (by rfl)
    (by
      intro e he
      simp at he
      exact ⟨_, he⟩)

set_option maxHeartbeats 1600000 in
/-- C10 counterexample: a circle with `radius: 0` but a truthy `size`
alias is NOT defaulted to 60 — the falsy radius falls through the
`radius or r or size` alias chain to the size value, so the normalized
radius is 50. -/
theorem C10_counterexample :
    normElement (fun _ => none)
        (.jobj [("type", JVal.jstr "circle"), ("radius", JVal.jnum 0),
                ("size", JVal.jnum 50)]) =
      .ok (.jobj [("type", JVal.jstr "circle"), ("x", JVal.jnum 100), ("y", JVal.jnum 100),
                  ("radius", JVal.jnum 50), ("color", JVal.jstr "#1e90ff")]) ∧
    ¬ (JVal.jnum 50 = JVal.jnum 60) := by
  constructor
  · have ht0 : rawType [("type", JVal.jstr "circle"), ("radius", JVal.jnum 0),
        ("size", JVal.jnum 50)] = "circle" := by decide
    have h50 : coerceInt (JVal.jnum 50) none = some 50 := coerceInt_jnum 50 none rfl
    simp only [normElement, ht0]
    simp [dget, dgetD, dlookup, pyOr, pyTruthy, coerceInt_null, pyOrZ, optChunk,
      sanitizePoints, h50]
  · decide

set_option maxHeartbeats 1600000 in
/-- C10 amended: with the `r`/`size` (resp. `w`/`h`) aliases absent, a
dimension equal to 0 is treated like an absent dimension because the
defaulting tests numeric truthiness: circle radius 0 → 60,
rect/triangle/ellipse width 0 → 180 and height 0 → 120, line width 0 → 220. -/
theorem C10_zero_dimension_defaults (fetch : JVal → Option String)
    (kvs : List (String × JVal)) :
    (dlookup kvs "type" = some (.jstr "circle") →
      dlookup kvs "radius" = some (.jnum 0) →
      dlookup kvs "r" = none → dlookup kvs "size" = none →
      ∃ out, normElement fetch (.jobj kvs) = .ok (.jobj out) ∧
        dlookup out "radius" = some (.jnum 60)) ∧
    (∀ t : String, (t = "rect" ∨ t = "triangle" ∨ t = "ellipse") →
      dlookup kvs "type" = some (.jstr t) →
      dlookup kvs "width" = some (.jnum 0) → dlookup kvs "w" = none →
      dlookup kvs "height" = some (.jnum 0) → dlookup kvs "h" = none →
      ∃ out, normElement fetch (.jobj kvs) = .ok (.jobj out) ∧
        dlookup out "width" = some (.jnum 180) ∧
        dlookup out "height" = some (.jnum 120)) ∧
    (dlookup kvs "type" = some (.jstr "line") →
      dlookup kvs "width" = some (.jnum 0) → dlookup kvs "w" = none →
      ∃ out, normElement fetch (.jobj kvs) = .ok (.jobj out) ∧
        dlookup out "width" = some (.jnum 220)) := by
  refine ⟨?_, ?_, ?_⟩
  · intro hty hrad hr hsz
    refine ⟨_, rfl, ?_⟩
    have ht0 : rawType kvs = "circle" := (rawType_eq kvs "circle" hty).trans (by decide)
    simp only [ht0]
    simp [dget, dgetD, hrad, hr, hsz, pyOr, pyTruthy, coerceInt, pyOrZ,
      dlookup_append, dlookup_optChunk_ne, dlookup_optChunk_self, dlookup]
  · intro t hdisj hty hw hwa hh hha
    rcases hdisj with rfl | rfl | rfl
    · refine ⟨_, rfl, ?_⟩
      have ht0 : rawType kvs = "rect" := (rawType_eq kvs "rect" hty).trans (by decide)
      simp only [ht0]
      simp [dget, dgetD, hw, hwa, hh, hha, pyOr, pyTruthy, coerceInt, pyOrZ,
        dlookup_append, dlookup_optChunk_ne, dlookup_optChunk_self, dlookup]
    · refine ⟨_, rfl, ?_⟩
      have ht0 : rawType kvs = "triangle" := (rawType_eq kvs "triangle" hty).trans (by decide)
      simp only [ht0]
      simp [dget, dgetD, hw, hwa, hh, hha, pyOr, pyTruthy, coerceInt, pyOrZ,
        dlookup_append, dlookup_optChunk_ne, dlookup_optChunk_self, dlookup]
    · refine ⟨_, rfl, ?_⟩
      have ht0 : rawType kvs = "ellipse" := (rawType_eq kvs "ellipse" hty).trans (by decide)
      simp only [ht0]
      simp [dget, dgetD, hw, hwa, hh, hha, pyOr, pyTruthy, coerceInt, pyOrZ,
        dlookup_append, dlookup_optChunk_ne, dlookup_optChunk_self, dlookup]
  · intro hty hw hwa
    refine ⟨_, rfl, ?_⟩
    have ht0 : rawType kvs = "line" := (rawType_eq kvs "line" hty).trans (by decide)
    simp only [ht0]
    simp [dget, dgetD, hw, hwa, pyOr, pyTruthy, coerceInt, pyOrZ,
      dlookup_append, dlookup_optChunk_ne, dlookup_optChunk_self, dlookup]

/-- Witness for C10 amended: a plain `radius: 0` circle gets radius 60. -/
theorem C10_zero_dimension_defaults_witness :
    ∃ out, normElement (fun _ => none)
        (.jobj [("type", JVal.jstr "circle"), ("radius", JVal.jnum 0)]) =
      .ok (.jobj out) ∧ dlookup out "radius" = some (.jnum 60) :=
  (C10_zero_dimension_defaults (fun _ => none)
    [("type", JVal.jstr "circle"), ("radius", JVal.jnum 0)]).1
    (by rfl) (by rfl) (by rfl) (by rfl)

/-- A value passing the `isinstance(spec["expressions"], list)` guard is a
list. -/
theorem isListVal_some_jarr (o : Option JVal) (h : isListVal o = true) :
    ∃ xs, o = some (.jarr xs) := by
  cases o with
  | none => simp [isListVal] at h
  | some v =>
    cases v with
    | jarr xs => exact ⟨xs, rfl⟩
    | null => simp [isListVal] at h
    | jbool b => simp [isListVal] at h
    | jnum q => simp [isListVal] at h
    | jstr s => simp [isListVal] at h
    | jobj kvs => simp [isListVal] at h

set_option maxHeartbeats 1600000 in
/-- C4 counterexample: `normalize_spec` is not idempotent.  A
`mathematical`-tagged payload without an expression is downgraded to
`conceptual` with its elements passed through RAW; a second application
then normalizes those raw elements, producing a different dict. -/
theorem C4_counterexample :
    normalize_spec (fun _ => none)
        [("visualType", JVal.jstr "mathematical"), ("elements", JVal.jarr [JVal.jobj []])] =
      .ok [("visualType", JVal.jstr "conceptual"), ("elements", JVal.jarr [JVal.jobj []])] ∧
    normalize_spec (fun _ => none)
        [("visualType", JVal.jstr "conceptual"), ("elements", JVal.jarr [JVal.jobj []])] =
      .ok [("visualType", JVal.jstr "conceptual"),
           ("elements", JVal.jarr [JVal.jobj [("type", JVal.jstr "text"), ("x", JVal.jnum 100),
             ("y", JVal.jnum 100), ("color", JVal.jstr "#1e90ff")]])] ∧
    ¬ ([("visualType", JVal.jstr "conceptual"), ("elements", JVal.jarr [JVal.jobj []])] =
       [("visualType", JVal.jstr "conceptual"),
        ("elements", JVal.jarr [JVal.jobj [("type", JVal.jstr "text"), ("x", JVal.jnum 100),
          ("y", JVal.jnum 100), ("color", JVal.jstr "#1e90ff")]])]) :=
  ⟨by rfl, by rfl, by decide⟩

set_option maxHeartbeats 1600000 in
/-- C4 amended: `normalize_spec` IS idempotent on the tagged branches —
payloads tagged plotly, mermaid or mathematical-interactive, and
mathematical payloads that carry an expression or expression list; the
mathematical downgrade and the element branch are not idempotent in
general (see the counterexample; an element whose truthy dimension
coerces to 0 also loses the field on re-normalization). -/
theorem C4_idempotent_tagged (fetch : JVal → Option String) (spec r : List (String × JVal))
    (hvt : dgetD spec "visualType" (.jstr "conceptual") = .jstr "plotly" ∨
           dgetD spec "visualType" (.jstr "conceptual") = .jstr "mermaid" ∨
           dgetD spec "visualType" (.jstr "conceptual") = .jstr "mathematical_interactive" ∨
           (dgetD spec "visualType" (.jstr "conceptual") = .jstr "mathematical" ∧
             (isListVal (dlookup spec "expressions") = true ∨
              (dlookup spec "expression").isSome = true)))
    (h : normalize_spec fetch spec = .ok r) :
    normalize_spec fetch r = .ok r := by
  simp only [normalize_spec] at h
  cases hlen : pyLen (pyOr (dget spec "elements") (.jarr [])) with
  | error m => rw [hlen] at h; simp at h
  | ok n =>
    rw [hlen] at h
    rcases hvt with h1 | h1 | h1 | ⟨h1, hx⟩
    · rw [if_pos h1] at h
      by_cases h2 : (dlookup spec "plotlySpec").isSome = true
      · rw [if_pos h2] at h
        simp only [Except.ok.injEq] at h
        rw [← h, h1]
        rfl
      · rw [if_neg h2] at h
        simp only [Except.ok.injEq] at h
        rw [← h]
        rfl
    · have hn1 : ¬ dgetD spec "visualType" (.jstr "conceptual") = .jstr "plotly" := by
        simp [h1]
      rw [if_neg hn1, if_pos h1] at h
      by_cases h2 : (dlookup spec "mermaidCode").isSome = true
      · rw [if_pos h2] at h
        simp only [Except.ok.injEq] at h
        rw [← h, h1]
        rfl
      · rw [if_neg h2] at h
        simp only [Except.ok.injEq] at h
        rw [← h]
        rfl
    · have hn1 : ¬ dgetD spec "visualType" (.jstr "conceptual") = .jstr "plotly" := by
        simp [h1]
      have hn2 : ¬ dgetD spec "visualType" (.jstr "conceptual") = .jstr "mermaid" := by
        simp [h1]
      rw [if_neg hn1, if_neg hn2, if_pos h1] at h
      by_cases h2 : isListVal (dlookup spec "expressions") = true
      · obtain ⟨xs, hxs⟩ := isListVal_some_jarr _ h2
        rw [if_pos h2] at h
        simp only [Except.ok.injEq] at h
        have hd : dget spec "expressions" = .jarr xs := by simp [dget, hxs]
        rw [← h, h1, hd]
        rfl
      · rw [if_neg h2] at h
        simp only [Except.ok.injEq] at h
        rw [← h, h1]
        rfl
    · have hn1 : ¬ dgetD spec "visualType" (.jstr "conceptual") = .jstr "plotly" := by
        simp [h1]
      have hn2 : ¬ dgetD spec "visualType" (.jstr "conceptual") = .jstr "mermaid" := by
        simp [h1]
      have hn3 : ¬ dgetD spec "visualType" (.jstr "conceptual") =
          .jstr "mathematical_interactive" := by
        simp [h1]
      rw [if_neg hn1, if_neg hn2, if_neg hn3, if_pos h1] at h
      by_cases h2 : isListVal (dlookup spec "expressions") = true
      · obtain ⟨xs, hxs⟩ := isListVal_some_jarr _ h2
        rw [if_pos h2] at h
        simp only [Except.ok.injEq] at h
        have hd : dget spec "expressions" = .jarr xs := by simp [dget, hxs]
        rw [← h, h1, hd]
        rfl
      · have h3 : (dlookup spec "expression").isSome = true := hx.resolve_left h2
        rw [if_neg h2, if_pos h3] at h
        simp only [Except.ok.injEq] at h
        rw [← h, h1]
        rfl

/-- Witness for C4 amended: a plotly payload is a fixed point. -/
theorem C4_idempotent_tagged_witness :
    normalize_spec (fun _ => none)
        [("visualType", JVal.jstr "plotly"), ("plotlySpec", JVal.jobj [("data", JVal.jarr [])])] =
      .ok [("visualType", JVal.jstr "plotly"),
           ("plotlySpec", JVal.jobj [("data", JVal.jarr [])])] :=
  C4_idempotent_tagged (fun _ => none)
    [("visualType", JVal.jstr "plotly"), ("plotlySpec", JVal.jobj [("data", JVal.jarr [])])]
    [("visualType", JVal.jstr "plotly"), ("plotlySpec", JVal.jobj [("data", JVal.jarr [])])]
    (Or.inl (by rfl)) (by rfl)

set_option maxHeartbeats 1600000 in
/-- An image element without an explicit `src` whose every resolver lookup
misses keeps its resolved type, position and color, and carries no `src`. -/
theorem normElement_image_miss (fetch : JVal → Option String) (kvs : List (String × JVal))
    (hfetch : ∀ v, fetch v = none)
    (hty : dlookup kvs "type" = some (.jstr "image"))
    (hsrc : dlookup kvs "src" = none) :
    ∃ out, normElement fetch (.jobj kvs) = .ok (.jobj out) ∧
      dlookup out "type" = some (.jstr "image") ∧
      (dlookup out "x").isSome = true ∧ (dlookup out "y").isSome = true ∧
      (dlookup out "color").isSome = true ∧ dlookup out "src" = none := by
  refine ⟨_, rfl, ?_⟩
  have ht0 : rawType kvs = "image" := (rawType_eq kvs "image" hty).trans (by decide)
  simp only [ht0]
  simp [dget, dgetD, hsrc, hfetch, pyOr, pyTruthy, coerceInt_null, pyOrZ,
    dlookup_append, dlookup_optChunk_ne, dlookup_optChunk_self, dlookup]

set_option maxHeartbeats 1600000 in
/-- C8: for an element-based payload of dict elements containing an image
element with a named-entity lookup key and no explicit src, a resolver
that returns none yields a spec that still contains that image element —
resolved type, position and color present, no `src` field — with no
exception and no dropped element. -/
theorem C8_resolution_miss (fetch : JVal → Option String) (spec : List (String × JVal))
    (es : List JVal) (i : ℕ) (kvs : List (String × JVal))
    (hfetch : ∀ v, fetch v = none)
    (helems : pyOr (dget spec "elements") (.jarr []) = .jarr es)
    (hv1 : ¬ dgetD spec "visualType" (.jstr "conceptual") = .jstr "plotly")
    (hv2 : ¬ dgetD spec "visualType" (.jstr "conceptual") = .jstr "mermaid")
    (hv3 : ¬ dgetD spec "visualType" (.jstr "conceptual") = .jstr "mathematical_interactive")
    (hv4 : ¬ dgetD spec "visualType" (.jstr "conceptual") = .jstr "mathematical")
    (hobj : ∀ e ∈ es, ∃ k, e = JVal.jobj k)
    (hi : es[i]? = some (.jobj kvs))
    (hty : dlookup kvs "type" = some (.jstr "image"))
    (hsrc : dlookup kvs "src" = none)
    (_hkey : pyTruthy (dget kvs "celebrity_name") = true ∨
            pyTruthy (dget kvs "anatomy_term") = true ∨
            pyTruthy (dget kvs "geography_term") = true) :
    ∃ r nes out, normalize_spec fetch spec = .ok r ∧
      dlookup r "elements" = some (.jarr nes) ∧ nes.length = es.length ∧
      nes[i]? = some (.jobj out) ∧
      dlookup out "type" = some (.jstr "image") ∧
      (dlookup out "x").isSome = true ∧ (dlookup out "y").isSome = true ∧
      (dlookup out "color").isSome = true ∧ dlookup out "src" = none := by
  obtain ⟨vs, hvs, hlen, hidx⟩ := normElements_ok fetch es hobj
  obtain ⟨out0, hout, hvsi⟩ := hidx i _ hi
  obtain ⟨out, hne, hp1, hp2, hp3, hp4, hp5⟩ := normElement_image_miss fetch kvs hfetch hty hsrc
  have hout0 : out0 = .jobj out := by
    rw [hout] at hne
    exact (Except.ok.injEq _ _).mp hne
  have hnorm : normalize_spec fetch spec =
      .ok [("visualType", dgetD spec "visualType" (.jstr "conceptual")),
           ("elements", .jarr vs)] := by
    simp only [normalize_spec, helems, pyLen, pyIter, hvs]
    rw [if_neg hv1, if_neg hv2, if_neg hv3, if_neg hv4]
  refine ⟨_, vs, out, hnorm, by simp [dlookup], hlen, by rw [← hout0]; exact hvsi,
    hp1, hp2, hp3, hp4, hp5⟩

set_option maxHeartbeats 1600000 in
/-- Witness for C8 at a one-element payload with a celebrity lookup key. -/
theorem C8_resolution_miss_witness :
    ∃ r nes out, normalize_spec (fun _ => none)
        [("elements", JVal.jarr [JVal.jobj
          [("type", JVal.jstr "image"), ("celebrity_name", JVal.jstr "Lionel Messi")]])] =
      .ok r ∧
      dlookup r "elements" = some (.jarr nes) ∧
      nes.length = [JVal.jobj [("type", JVal.jstr "image"),
        ("celebrity_name", JVal.jstr "Lionel Messi")]].length ∧
      nes[0]? = some (.jobj out) ∧
      dlookup out "type" = some (.jstr "image") ∧
      (dlookup out "x").isSome = true ∧ (dlookup out "y").isSome = true ∧
      (dlookup out "color").isSome = true ∧ dlookup out "src" = none :=
  C8_resolution_miss (fun _ => none)
    [("elements", JVal.jarr [JVal.jobj
      [("type", JVal.jstr "image"), ("celebrity_name", JVal.jstr "Lionel Messi")]])]
    [JVal.jobj [("type", JVal.jstr "image"), ("celebrity_name", JVal.jstr "Lionel Messi")]]
    0
    [("type", JVal.jstr "image"), ("celebrity_name", JVal.jstr "Lionel Messi")]
    (fun _ => rfl) (by rfl) (by decide) (by decide) (by decide) (by decide)
    (by
      intro e he
      simp at he
      exact ⟨_, he⟩)
    (by rfl) (by rfl) (by rfl) (Or.inl (by rfl))

set_option maxHeartbeats 1600000 in
/-- C2 counterexample: the command `"y = x"` (with spaces, as the claim's
regex `y\s*=\s*...` matches) never reaches the rule engine — the math-like
fast-path check looks for the substring `"y="` without spaces, so
`is_math` is false and the primary model is invoked; when it succeeds the
provenance is `"llm"`, not `"rules"`. -/
theorem C2_counterexample :
    (try_plot_function (fun _ => some (fun q => some q)) "y = x").isSome = true ∧
    interpret_with_source ⟨true, false, false⟩
        ⟨fun _ => some (fun q => some q), none, false, "gpt-image-1", fun _ => none,
         fun _ => .ok (.jobj [("elements", .jarr [.jobj [("type", .jstr "circle")]])]),
         fun _ => none⟩
        "y = x" "FREE" =
      (.ok (some (.jobj [("visualType", .jstr "conceptual"),
          ("elements", .jarr [.jobj [("type", .jstr "circle"), ("x", .jnum 100),
            ("y", .jnum 100), ("radius", .jnum 60), ("color", .jstr "#1e90ff")]])]),
        "llm", none), ⟨0, 0, 1, 0⟩) :=
  ⟨by rfl, by rfl⟩

set_option maxHeartbeats 1600000 in
/-- C2 amended: for a command that additionally contains one of the
orchestrator's math keywords (e.g. `y=` written without spaces) and does
not mention `parabola` (whose handler runs first), with no chart-type
keyword, a regex match and a parseable expression, and rules enabled:
the run returns provenance `"rules"`, the spec is exactly two axis lines
plus one 120-point polyline, and no model call is attempted
(`llmCalls = 0` in the returned accounting). -/
theorem C2_explicit_equation_rules (fl : Flags) (orc : Oracles) (cmd tier : String)
    (body : List Char) (fn : ℚ → Option ℚ)
    (hdr : fl.AI_DISABLE_RULES = false)
    (hmath : containsAny (pyLower cmd) math_keywords = true)
    (hpar : hasSubstr (pyLower cmd) "parabola" = false)
    (hchart : containsAny (pyLower cmd) chart_type_keywords = false)
    (hm : findYEq cmd.data = some body)
    (hfn : safe_parse_function orc.compileEval (pyStrip (String.mk body)) = some fn) :
    interpret_with_source fl orc cmd tier =
      (.ok (some (.jobj [("elements", .jarr
          [xAxisLine, yAxisLine,
           .jobj [("type", .jstr "polyline"),
                  ("points", .jarr (polyPoints fn (-6) 6 120)),
                  ("color", .jstr "#10b981")]])]), "rules", none), ⟨0, 0, 0, 1⟩) ∧
    (polyPoints fn (-6) 6 120).length = 120 := by
  refine ⟨?_, polyPoints_length fn (-6) 6 120⟩
  have hpara : try_parabola_tangent cmd = .ok none := by
    simp only [try_parabola_tangent, hpar]
    simp
  have hplot : try_plot_function orc.compileEval cmd =
      some (.jobj [("elements", .jarr
        [xAxisLine, yAxisLine,
         .jobj [("type", .jstr "polyline"),
                ("points", .jarr (polyPoints fn (-6) 6 120)),
                ("color", .jstr "#10b981")]])]) := by
    simp only [try_plot_function, hchart, hm, hfn]
    simp
  have hrules : interpret_by_rules orc.compileEval cmd =
      .ok (some (.jobj [("elements", .jarr
        [xAxisLine, yAxisLine,
         .jobj [("type", .jstr "polyline"),
                ("points", .jarr (polyPoints fn (-6) 6 120)),
                ("color", .jstr "#10b981")]])])) := by
    simp only [interpret_by_rules, hpara, hplot]
  simp only [interpret_with_source, hmath, hdr, hrules]
  simp

/-- Witness for C2 amended at the command `"y=x"`. -/
theorem C2_explicit_equation_rules_witness :
    (polyPoints (fun (q : ℚ) => some q) (-6) 6 120).length = 120 :=
  (C2_explicit_equation_rules ⟨true, false, false⟩
    ⟨fun _ => some (fun q => some q), none, false, "gpt-image-1", fun _ => none,
     fun _ => .error "unused", fun _ => none⟩
    "y=x" "FREE" ['x'] (fun q => some q)
    (by rfl) (by decide) (by decide) (by decide) (by rfl) (by rfl)).2

end Nawwa
